import Mathlib

/-!
# Verification of the AVS media analyzer (avs-media-analyzer)

A shallow embedding, in Lean 4, of the TypeScript sources of the
`avs-media-analyzer` repository, together with theorems settling the claims
of the specification about it.

Conventions of the embedding:

* JavaScript numbers that hold integer values are modelled as `Int`
  (JS doubles are exact on all integers occurring here); the 32-bit
  wrap-around of the JS bitwise operators `<<` and `|` is modelled
  explicitly by `toInt32` / `jsShl` / `jsOr`.
* A JS number variable that may also hold `undefined` is modelled as
  `Option Int`; a variable that may end up holding `NaN` is modelled by
  the two-constructor type `JSNum`.
* `Uint8Array` buffers are modelled as `List Nat`; JS indexing out of
  range yields `undefined`, which the sources only ever consume through
  bounds checks or `x || 0` patterns, matched case by case below.
* Thrown JS exceptions are modelled with `Except JSError`.
* JS `while` loops whose progress is not structural are given an explicit
  fuel argument that provably dominates the number of iterations of the
  original loop; the fuel-exhaustion branch is unreachable at every call
  site that mirrors the source.
* Non-ASCII string table entries (Chinese profile names and so on) are kept
  verbatim from the sources.
-/

/-- A thrown JS exception: `Error(msg)` or a `TypeError` raised by the
runtime (for the sources at hand: indexing into `undefined`). -/
inductive JSError where
  | error (msg : String)
  | typeErr
deriving Repr, DecidableEq

/-- A JS number that is either an exact integer or `NaN`
(`undefined * 1000` evaluates to `NaN` in JS). -/
inductive JSNum where
  | num (n : Int)
  | nan
deriving Repr, DecidableEq

/-- ECMAScript `ToInt32`: wrap an integer into `[-2^31, 2^31)`. -/
def toInt32 (n : Int) : Int :=
  let m := n.emod 4294967296
  if m < 2147483648 then m else m - 4294967296

/-- ECMAScript `ToUint32` of an integer, as a natural number in `[0, 2^32)`. -/
def toUInt32 (n : Int) : Nat :=
  (n.emod 4294967296).toNat

/-- JS `a << b` on integer operands (`b` a nonnegative shift count):
both operands pass through `ToInt32`, the count is taken mod 32. -/
def jsShl (a : Int) (b : Nat) : Int :=
  toInt32 (toInt32 a * 2 ^ (b % 32))

/-- JS `a | b` on integer operands: bitwise or of the 32-bit images,
reinterpreted as a signed 32-bit integer. -/
def jsOr (a b : Int) : Int :=
  toInt32 (Int.ofNat (Nat.lor (toUInt32 a) (toUInt32 b)))

/-- The state of `BitReader` (src/utils.ts): an immutable byte buffer plus a
`(bytePosition, bitPosition)` cursor.  `bitPosition < 8` holds at every state
reachable from the constructor, as in the source. -/
structure BitReader where
  buffer : List Nat
  bytePosition : Nat
  bitPosition : Nat
deriving Repr, DecidableEq

/-- `new BitReader(buffer, startOffset)` (src/utils.ts line 6). -/
def BitReader.init (buffer : List Nat) (startOffset : Nat) : BitReader :=
  { buffer := buffer, bytePosition := startOffset, bitPosition := 0 }

/-- The inner `while (bitsToRead > 0)` loop of `BitReader.readBits`
(src/utils.ts lines 22-44).  `fuel` dominates the iteration count
(each pass reads at least one bit, so `fuel := bitsToRead` suffices;
the fuel-exhaustion branch is unreachable from `BitReader.readBits`). -/
def readBitsGo (buf : List Nat) :
    Nat → Nat → Int → Nat → Nat → Except JSError (Int × Nat × Nat)
  | _, 0, result, bytePos, bitPos => .ok (result, bytePos, bitPos)
  | 0, _ + 1, _, _, _ => .error (.error "unreachable: fuel exhausted")
  | fuel + 1, n + 1, result, bytePos, bitPos =>
    if bytePos ≥ buf.length then .error (.error "Reading past end of buffer")
    else
      let bitsLeftInByte := 8 - bitPos
      let bitsToReadInThisStep := min (n + 1) bitsLeftInByte
      let mask : Nat := 2 ^ bitsToReadInThisStep - 1
      let byte := buf.getD bytePos 0
      let shift := bitsLeftInByte - bitsToReadInThisStep
      let value : Nat := (byte >>> shift) &&& mask
      let result := jsOr (jsShl result bitsToReadInThisStep) (Int.ofNat value)
      let bitPos := bitPos + bitsToReadInThisStep
      let (bytePos, bitPos) :=
        if bitPos = 8 then (bytePos + 1, 0) else (bytePos, bitPos)
      readBitsGo buf fuel (n + 1 - bitsToReadInThisStep) result bytePos bitPos

/-- `BitReader.readBits(n)` (src/utils.ts lines 11-46): read `n` bits MSB
first across byte boundaries.  Throws when `n > 32` or when the cursor passes
the end of the buffer. -/
def BitReader.readBits (r : BitReader) (n : Nat) :
    Except JSError (Int × BitReader) :=
  if n > 32 then .error (.error "Cannot read more than 32 bits at a time")
  else if n = 0 then .ok (0, r)
  else
    match readBitsGo r.buffer n n 0 r.bytePosition r.bitPosition with
    | .ok (v, bytePos, bitPos) =>
        .ok (v, { r with bytePosition := bytePos, bitPosition := bitPos })
    | .error e => .error e

/-- `BitReader.readBit()` (src/utils.ts lines 48-63). -/
def BitReader.readBit (r : BitReader) : Except JSError (Nat × BitReader) :=
  if r.bytePosition ≥ r.buffer.length then
    .error (.error "Reading past end of buffer")
  else
    let byte := r.buffer.getD r.bytePosition 0
    let bit := (byte >>> (7 - r.bitPosition)) &&& 1
    let bitPos := r.bitPosition + 1
    if bitPos = 8 then
      .ok (bit, { r with bytePosition := r.bytePosition + 1, bitPosition := 0 })
    else
      .ok (bit, { r with bitPosition := bitPos })

/-- `BitReader.skipBits(n)` (src/utils.ts lines 65-69): unchecked skip. -/
def BitReader.skipBits (r : BitReader) (n : Nat) : BitReader :=
  let totalBitsOffset := r.bytePosition * 8 + r.bitPosition + n
  { r with bytePosition := totalBitsOffset / 8, bitPosition := totalBitsOffset % 8 }

/-- `BitReader.checkMarkerBit()` (src/utils.ts lines 86-90): read one bit and
throw unless it is 1.  Note that the cursor advance performed by `readBit`
persists even when the error is thrown (relevant where a caller catches it). -/
def BitReader.checkMarkerBit (r : BitReader) : Except JSError BitReader := do
  let (bit, r) ← r.readBit
  if bit ≠ 1 then .error (.error "Marker bit validation failed: expected 1.")
  else .ok r

/-- The `while (this.readBit() === 0)` loop of `BitReader.readUE` plus the
suffix read (src/utils.ts lines 95-106).  The loop body runs at most 32 times
(the 32nd zero makes `leadingZeroBits > 31` and throws), so `fuel := 33`
suffices and the fuel-exhaustion branch is unreachable from `readUE`. -/
def readUEGo (fuel : Nat) (r : BitReader) (leadingZeroBits : Nat) :
    Except JSError (Int × BitReader) :=
  match fuel with
  | 0 => .error (.error "unreachable: fuel exhausted")
  | fuel + 1 => do
    let (bit, r) ← r.readBit
    if bit = 0 then
      let leadingZeroBits := leadingZeroBits + 1
      if leadingZeroBits > 31 then
        .error (.error "Invalid Exp-Golomb code: too many leading zeros.")
      else
        readUEGo fuel r leadingZeroBits
    else do
      let (codeNum, r) ← r.readBits leadingZeroBits
      .ok (jsShl 1 leadingZeroBits - 1 + codeNum, r)

/-- `BitReader.readUE()` (src/utils.ts lines 95-106): unsigned Exp-Golomb.
Returns `(1 << k) - 1 + codeNum` where `k` is the number of leading zeros;
the shift is the 32-bit JS `<<`. -/
def BitReader.readUE (r : BitReader) : Except JSError (Int × BitReader) :=
  readUEGo 33 r 0

/-- `BitReader.readBoolean()` (src/utils.ts lines 126-128). -/
def BitReader.readBoolean (r : BitReader) : Except JSError (Bool × BitReader) := do
  let (bit, r) ← r.readBit
  .ok (bit = 1, r)

/-! ## AV3A (Audio Vivid) common tables and analyzer

From src/av3a-common.ts and the `AV3AAnalyzer` part of src/avs1-common.ts.
TypeScript enums are numbers at runtime; they are modelled as `Int` with the
member values of the source (`ChannelConfiguration.Reserved = 13`,
`CodingProfile.Reserved = 3`, `NeuralNetworkType.Reserved = 2`). -/

/-- `BITRATE_TABLES` (src/avs1-common.ts lines 123-136): a JS object keyed by
the `ChannelConfiguration` member values; any other key yields `undefined`
(`none`).  Note that indices 4 and 5 are not members of the enum. -/
def BITRATE_TABLES (config : Int) : Option (List Int) :=
  match config with
  | 0x0 => some [0, 32, 44, 56, 64, 72, 80, 96, 128, 144, 164, 192]
  | 0x1 => some [0, 32, 48, 64, 80, 96, 128, 144, 192, 256, 320]
  | 0x2 => some [192, 256, 320, 384, 448, 512, 640, 720, 144, 96, 128, 160]
  | 0x3 => some [192, 480, 256, 384, 576, 640, 128, 160]
  | 0x6 => some [0, 96, 128, 192, 256]
  | 0x7 => some [152, 320, 480, 576]
  | 0x8 => some [176, 384, 576, 704, 256, 448]
  | 0x9 => some [216, 480, 576, 384, 768]
  | 0xa => some [240, 608, 384, 512, 832]
  | 0xc => some [192, 256, 320, 384, 480, 512, 640]
  | 0xb => some [256, 320, 384, 512, 640, 896]
  | 13 => some []
  | _ => none

/-- `queryBitrate` (src/avs1-common.ts lines 138-140):
`BITRATE_TABLES[channel_configuration][bitrate_index] || 0`.
When `channel_configuration` is `undefined` or not a key of the table object,
`BITRATE_TABLES[...]` is `undefined` and indexing it throws a `TypeError`;
an out-of-range or falsy element yields 0 through `|| 0`. -/
def queryBitrate (channel_configuration : Option Int) (bitrate_index : Int) :
    Except JSError Int :=
  match channel_configuration with
  | none => .error .typeErr
  | some c =>
    match BITRATE_TABLES c with
    | none => .error .typeErr
    | some tbl =>
      .ok (if 0 ≤ bitrate_index then tbl.getD bitrate_index.toNat 0 else 0)

/-- `CHANNEL_COUNTS` lookup wrapped as `AV3AUtils.getChannelCount`
(src/av3a-common.ts lines 77-90 and 155-157): `CHANNEL_COUNTS[config] || 0`;
a missing key gives `undefined`, hence 0. -/
def AV3AUtils.getChannelCount (config : Int) : Int :=
  match config with
  | 0x0 => 1
  | 0x1 => 2
  | 0x2 => 6
  | 0x3 => 8
  | 0x6 => 4
  | 0x7 => 8
  | 0x8 => 10
  | 0x9 => 10
  | 0xa => 12
  | 0xc => 9
  | 0xb => 16
  | _ => 0

/-- `SAMPLING_FREQUENCIES` lookup wrapped as `AV3AUtils.getSamplingFrequency`
(src/av3a-common.ts lines 62-72 and 99-101): `SAMPLING_FREQUENCIES[index] || 0`. -/
def AV3AUtils.getSamplingFrequency (index : Int) : Int :=
  match index with
  | 0x0 => 192000
  | 0x1 => 96000
  | 0x2 => 48000
  | 0x3 => 44100
  | 0x4 => 32000
  | 0x5 => 24000
  | 0x6 => 22050
  | 0x7 => 16000
  | 0x8 => 8000
  | _ => 0

/-- `AV3AUtils.getResolution` (src/av3a-common.ts lines 106-113). -/
def AV3AUtils.getResolution (value : Int) : Int :=
  match value with
  | 0 => 8
  | 1 => 16
  | 2 => 24
  | _ => 0

/-- `AV3AUtils.getChannelConfiguration` (src/av3a-common.ts lines 118-120):
`index < ChannelConfiguration.Reserved (= 13) ? index : Reserved`. -/
def AV3AUtils.getChannelConfiguration (index : Int) : Int :=
  if index < 13 then index else 13

/-- `AV3AUtils.getNeuralNetworkType` (src/av3a-common.ts lines 125-127):
`value < NeuralNetworkType.Reserved (= 2) ? value : Reserved`. -/
def AV3AUtils.getNeuralNetworkType (value : Int) : Int :=
  if value < 2 then value else 2

/-- `AV3AUtils.getCodingProfile` (src/av3a-common.ts lines 132-134):
`value < CodingProfile.Reserved (= 3) ? value : Reserved`. -/
def AV3AUtils.getCodingProfile (value : Int) : Int :=
  if value < 3 then value else 3

/-- `AV3AUtils.isValidAudioCodecId` (src/av3a-common.ts lines 146-150):
accepts `GENERAL_HIGH_BITRATE = 0`, `LOSSLESS = 1`, `GENERAL_FULL_BITRATE = 2`. -/
def AV3AUtils.isValidAudioCodecId (codecId : Int) : Bool :=
  codecId = 0 || codecId = 1 || codecId = 2

/-- The record returned by `AV3AAnalyzer.parseAATFFrameHeader`
(src/avs1-common.ts lines 145-157): optional fields are JS variables that may
remain `undefined`; `bit_rate` is always assigned by the trailing
`bit_rate *= 1000` and is `NaN` whenever no branch set it before. -/
structure AV3AFrameHeader where
  audio_codec_id : Int
  nn_type : Option Int
  coding_profile : Int
  sampling_frequency : Int
  raw_frame_length : Option Int
  channel_number : Option Int
  channel_configuration : Option Int
  object_channel_number : Option Int
  order : Option Int
  resolution : Int
  bit_rate : JSNum
deriving Repr, DecidableEq

/-- The `if (audio_codec_id == 1)` channel block of
`AV3AAnalyzer.parseAATFFrameHeader` (src/avs1-common.ts lines 280-287),
factored out of the (inlined, in the source) parse function: a 4-bit
channel field with escape value 15 followed by an explicit u8 count. -/
def aatfCodec1Channel (r : BitReader) : Except JSError (Option Int × BitReader) := do
  let (channel_bits, r) ← r.readBits 4
  if channel_bits = 15 then do
    let (v, r) ← r.readBits 8
    pure (some v, r)
  else pure (some channel_bits, r)

/-- The `if (audio_codec_id == 2)` block of
`AV3AAnalyzer.parseAATFFrameHeader` (src/avs1-common.ts lines 289-322),
factored out of the (inlined, in the source) parse function.  Returns the
`(channel_number, channel_configuration, object_channel_number, bit_rate)`
variables as mutated by the block. -/
def aatfCodec2Block (r : BitReader) (coding_profile : Int)
    (channel_number : Option Int) :
    Except JSError (Option Int × Option Int × Option Int × Option Int ×
      BitReader) := do
  let (channel_number, channel_configuration, r) ←
    if coding_profile = 0 then do
      let (channel_number_index, r) ← r.readBits 7
      let cc := AV3AUtils.getChannelConfiguration channel_number_index
      pure (some (AV3AUtils.getChannelCount cc), some cc, r)
    else pure (channel_number, (none : Option Int), r)
  if coding_profile = 1 then do
    let (soundBedType, r) ← r.readBits 2
    if soundBedType = 0 then do
      let (v, r) ← r.readBits 7
      let objects := v + 1
      let (obj_bitrate_index, r) ← r.readBits 4
      let q ← queryBitrate (some 0x0) obj_bitrate_index
      pure (channel_number, channel_configuration, some objects,
            some (q * objects), r)
    else if soundBedType = 1 then do
      let (channel_number_index, r) ← r.readBits 7
      let cc := AV3AUtils.getChannelConfiguration channel_number_index
      let (bed_bitrate_index, r) ← r.readBits 4
      let (v, r) ← r.readBits 7
      let objects := v + 1
      let (obj_bitrate_index, r) ← r.readBits 4
      let bed_bitrate ← queryBitrate (some cc) bed_bitrate_index
      let obj_q ← queryBitrate (some 0x0) obj_bitrate_index
      let obj_bitrate := obj_q * objects
      pure (some (AV3AUtils.getChannelCount cc), some cc, some objects,
            some (bed_bitrate + obj_bitrate), r)
    else
      pure (channel_number, channel_configuration, (none : Option Int),
            (none : Option Int), r)
  else
    pure (channel_number, channel_configuration, (none : Option Int),
          (none : Option Int), r)

/-- The trailing `if (audio_codec_id == 2 && coding_profile !=
OBJECT_METADATA)` bitrate block of `AV3AAnalyzer.parseAATFFrameHeader`
(src/avs1-common.ts lines 327-330), factored out of the (inlined, in the
source) parse function. -/
def aatfFinalBitrate (r : BitReader) (audio_codec_id coding_profile : Int)
    (channel_configuration bit_rate : Option Int) :
    Except JSError (Option Int × BitReader) :=
  if audio_codec_id = 2 ∧ coding_profile ≠ 1 then do
    let (bitrate_index, r) ← r.readBits 4
    let q ← queryBitrate channel_configuration bitrate_index
    pure (some q, r)
  else pure (bit_rate, r)

/-- `AV3AAnalyzer.parseAATFFrameHeader` (src/avs1-common.ts lines 250-351),
with the reader state threaded explicitly for the JS mutation of `reader`,
the three conditional blocks factored into the helpers above, and the
sequencing written with explicit `>>=` (one bind per source statement). -/
def parseAATFFrameHeader (r : BitReader) (audio_codec_id : Int) :
    Except JSError AV3AFrameHeader :=
  (if audio_codec_id = 2 then
    r.readBits 3 >>= fun (nn_type_raw, r) =>
      pure (some (AV3AUtils.getNeuralNetworkType nn_type_raw), r)
  else pure (none, r)) >>= fun (nn_type, r) =>
  r.readBits 3 >>= fun (coding_profile_raw, r) =>
  r.readBits 4 >>= fun (sampling_frequency_index, r) =>
  (if audio_codec_id = 1 ∧ sampling_frequency_index = 0xf then r.readBits 24
   else
     pure (AV3AUtils.getSamplingFrequency sampling_frequency_index, r)) >>=
    fun (sampling_frequency, r) =>
  (if audio_codec_id ≠ 2 then
    r.readBits 16 >>= fun (v, r) => pure (some v, r)
  else pure ((none : Option Int), r)) >>= fun (raw_frame_length, r) =>
  -- aatf_error_check() - 8bit CRC check, skip
  (if audio_codec_id = 1 then aatfCodec1Channel (r.skipBits 8)
   else pure ((none : Option Int), r.skipBits 8)) >>= fun (channel_number, r) =>
  (if audio_codec_id = 2 then
    aatfCodec2Block r (AV3AUtils.getCodingProfile coding_profile_raw)
      channel_number
  else
    pure (channel_number, (none : Option Int), (none : Option Int),
          (none : Option Int), r)) >>=
    fun (channel_number, channel_configuration, object_channel_number,
         bit_rate, r) =>
  (if audio_codec_id = 2 ∧
      AV3AUtils.getCodingProfile coding_profile_raw = 2 then
    r.readBits 4 >>= fun (v, r) => pure (some v, r)
  else pure ((none : Option Int), r)) >>= fun (order, r) =>
  r.readBits 2 >>= fun (resolution_raw, r) =>
  aatfFinalBitrate r audio_codec_id
    (AV3AUtils.getCodingProfile coding_profile_raw) channel_configuration
    bit_rate >>= fun (bit_rate, _r) =>
  -- bit_rate *= 1000 : on an undefined variable this produces NaN
  pure { audio_codec_id, nn_type
         coding_profile := AV3AUtils.getCodingProfile coding_profile_raw
         sampling_frequency, raw_frame_length, channel_number
         channel_configuration, object_channel_number, order
         resolution := AV3AUtils.getResolution resolution_raw
         bit_rate :=
           match bit_rate with
           | some v => .num (v * 1000)
           | none => .nan }

/-- One attempt of the syncword-candidate body of `AV3AAnalyzer.analyze`
(src/avs1-common.ts lines 173-194): skip the 12-bit syncword, read
`audio_codec_id`, and parse the frame header.  An invalid codec id makes the
source `continue` to the next offset exactly like a thrown error does, so it
is modelled as an error here. -/
def av3aAttempt (data : List Nat) (offset : Nat) :
    Except JSError AV3AFrameHeader := do
  let r := BitReader.init data offset
  let (_, r) ← r.readBits 12
  let (audio_codec_id, r) ← r.readBits 4
  if AV3AUtils.isValidAudioCodecId audio_codec_id then do
    let (_, r) ← r.readBits 1
    parseAATFFrameHeader r audio_codec_id
  else .error (.error "invalid audio_codec_id: advance one byte and retry")

/-- The `while (offset <= data.length - 2)` scan of `AV3AAnalyzer.analyze`
(src/avs1-common.ts lines 166-201).  `fuel` dominates the number of
iterations (`offset` grows by one each pass, so `data.length` suffices). -/
def av3aAnalyzeGo (data : List Nat) : Nat → Nat → Option AV3AFrameHeader
  | 0, _ => none
  | fuel + 1, offset =>
    if offset + 2 ≤ data.length then
      if data.getD offset 0 = 0xFF ∧ (data.getD (offset + 1) 0) &&& 0xF0 = 0xF0 then
        match av3aAttempt data offset with
        | .ok fh => some fh
        | .error _ => av3aAnalyzeGo data fuel (offset + 1)
      else av3aAnalyzeGo data fuel (offset + 1)
    else none

/-- `AV3AAnalyzer.analyze` (src/avs1-common.ts lines 166-201). -/
def av3aAnalyze (data : List Nat) : Option AV3AFrameHeader :=
  av3aAnalyzeGo data (data.length + 1) 0

/-! ## AVS3 audio descriptor parser

From `parseAVS3AudioDescriptor` in src/avs-descriptor-parser.ts
(lines 274-400).  The source compares `audio_codec_id` against
`AudioCodecId.GENERAL`, but the `AudioCodecId` enum of src/av3a-common.ts
(lines 8-12) has no member named `GENERAL` (only `GENERAL_HIGH_BITRATE = 0`,
`LOSSLESS = 1`, `GENERAL_FULL_BITRATE = 2`), so at runtime
`AudioCodecId.GENERAL` is `undefined`.  The JS loose equality
`number == undefined` is false and `undefined == undefined` is true, which
the embedding models on `Option Int` values. -/

/-- `AudioCodecId.GENERAL`: property access on the enum object for a member
that does not exist, i.e. `undefined`. -/
def AudioCodecId_GENERAL : Option Int := none

/-- `AudioCodecId.LOSSLESS = 1` (src/av3a-common.ts line 10). -/
def AudioCodecId_LOSSLESS : Option Int := some 1

/-- JS loose equality `==` restricted to number-or-`undefined` operands:
two numbers compare numerically, `undefined == undefined` is true, and a
number never equals `undefined`. -/
def jsLooseEq (a b : Option Int) : Bool :=
  match a, b with
  | some x, some y => x = y
  | none, none => true
  | _, _ => false

/-- The record returned by `parseAVS3AudioDescriptor`
(src/avs-descriptor-parser.ts lines 63-74).  `audio_codec_id` itself can be
`undefined` (the fallback for an invalid raw value is the nonexistent
`AudioCodecId.GENERAL`). -/
structure ParsedAVS3AudioDescriptor where
  audio_codec_id : Option Int
  sampling_frequency : Int
  nn_type : Option Int
  coding_profile : Option Int
  channel_number : Option Int
  channel_configuration : Option Int
  object_channel_number : Option Int
  order : Option Int
  resolution : Int
  bit_rate : Option Int
deriving Repr, DecidableEq

/-- `parseAVS3AudioDescriptor` (src/avs-descriptor-parser.ts lines 274-400).
All `BitReader` reads in the source are unguarded, so a short payload throws;
the TS function has no try/catch, which the callers of the descriptor parser
rely on not to happen for well-formed descriptors — the embedding surfaces
it as an `Except` error. -/
def parseAVS3AudioDescriptor (payload : List Nat) :
    Except JSError (Option ParsedAVS3AudioDescriptor) := do
  if payload.length < 2 then
    pure none
  else do
    let r := BitReader.init payload 0
    let (audio_codec_id_raw, r) ← r.readBits 4
    let audio_codec_id : Option Int :=
      if AV3AUtils.isValidAudioCodecId audio_codec_id_raw then
        some audio_codec_id_raw
      else AudioCodecId_GENERAL
    let (sampling_frequency_index, r) ← r.readBits 4
    let sampling_frequency :=
      AV3AUtils.getSamplingFrequency sampling_frequency_index
    let (sampling_frequency, coding_profile, channel_number, r) ←
      if jsLooseEq audio_codec_id AudioCodecId_LOSSLESS then do
        let (sampling_frequency, r) ←
          if sampling_frequency_index = 0xf then r.readBits 24
          else pure (sampling_frequency, r)
        let r := r.skipBits 1  -- anc_data_index
        let (coding_profile_raw, r) ← r.readBits 3
        let coding_profile := AV3AUtils.getCodingProfile coding_profile_raw
        let r := r.skipBits 4  -- reserved
        let (channel_number, r) ← r.readBits 8
        pure (sampling_frequency, some coding_profile, some channel_number, r)
      else
        pure (sampling_frequency, (none : Option Int), (none : Option Int), r)
    let (nn_type, channel_number, channel_configuration,
         object_channel_number, order, bit_rate, r) ←
      if jsLooseEq audio_codec_id AudioCodecId_GENERAL then do
        let (nn_type_raw, r) ← r.readBits 3
        let nn_type := AV3AUtils.getNeuralNetworkType nn_type_raw
        let r := r.skipBits 1  -- reserved
        let (content_type, r) ← r.readBits 4
        let (channel_number, channel_configuration, object_channel_number,
             order, r) ←
          if content_type = 0 then do
            let (channel_number_index, r) ← r.readBits 7
            let cc := AV3AUtils.getChannelConfiguration channel_number_index
            let r := r.skipBits 1  -- reserved
            pure (some (AV3AUtils.getChannelCount cc), some cc,
                  (none : Option Int), (none : Option Int), r)
          else if content_type = 1 then do
            let (v, r) ← r.readBits 7
            let r := r.skipBits 1  -- reserved
            pure (channel_number, (none : Option Int), some (v + 1),
                  (none : Option Int), r)
          else if content_type = 2 then do
            let (channel_number_index, r) ← r.readBits 7
            let cc := AV3AUtils.getChannelConfiguration channel_number_index
            let r := r.skipBits 1  -- reserved
            let (v, r) ← r.readBits 7
            let r := r.skipBits 1  -- reserved
            pure (some (AV3AUtils.getChannelCount cc), some cc, some (v + 1),
                  (none : Option Int), r)
          else if content_type = 3 then do
            let (v, r) ← r.readBits 4
            let r := r.skipBits 4  -- reserved
            pure (channel_number, (none : Option Int), (none : Option Int),
                  some v, r)
          else
            pure (channel_number, (none : Option Int), (none : Option Int),
                  (none : Option Int), r)
        let (total_bitrate, r) ← r.readBits 16
        pure (some nn_type, channel_number, channel_configuration,
              object_channel_number, order, some (total_bitrate * 1000), r)
      else
        pure ((none : Option Int), channel_number, (none : Option Int),
              (none : Option Int), (none : Option Int), (none : Option Int), r)
    let (resolution_raw, r) ← r.readBits 2
    let resolution := AV3AUtils.getResolution resolution_raw
    let _r := r.skipBits 6  -- reserved
    pure (some { audio_codec_id, sampling_frequency, nn_type, coding_profile,
                 channel_number, channel_configuration, object_channel_number,
                 order, resolution, bit_rate })

/-! ## Combined colour description

From src/avs-video-common.ts.  The `ColorDescription` enum (lines 71-80) has
members with values 1..7 plus `BT709`, which is auto-assigned the value 8. -/

/-- `ColorDescription.FCC = 4` (src/avs-video-common.ts line 75). -/
def ColorDescription_FCC : Int := 4

/-- `ColorDescription.BT709 = 8` (auto-assigned, src/avs-video-common.ts
line 79). -/
def ColorDescription_BT709 : Int := 8

/-- Whether `n` is the value of some member of the `ColorDescription` enum
(values 1..8, src/avs-video-common.ts lines 71-80). -/
def isColorDescriptionValue (n : Int) : Bool :=
  1 ≤ n && n ≤ 8

/-- `getCombinedColorDescription` (src/avs-video-common.ts lines 274-304).
The switch maps the common value through the like-named `ColorPrimaries`
members only; `ColorPrimaries.BT470_2_SYSTEM_M = 4` and
`ColorPrimaries.GENERIC_FILM = 8` fall to the `default: return null` arm. -/
def getCombinedColorDescription (primaries transfer matrix : Int) : Option Int :=
  if primaries = 1 ∧ transfer = 6 ∧ matrix = 1 then
    some ColorDescription_BT709
  else if primaries = transfer ∧ transfer = matrix then
    match primaries with
    | 1 => some 1  -- GY_T_155_2000
    | 2 => some 2  -- UNSPECIFIED
    | 3 => some 3  -- RESERVED
    | 5 => some 5  -- BT470_2_SYSTEM_BG
    | 6 => some 6  -- SMPTE170M
    | 7 => some 7  -- SMPTE240M
    | _ => none
  else none

/-! ## AVS1 analyzer

From src/unnamed/part_004 (`AVS1Analyzer`), src/avs1-common.ts (`AVS1Utils`)
and the shared tables of src/avs-video-common.ts.  JS floating-point table
entries (frame rates) are modelled as exact rationals; no claim depends on
their rounding.  The record fields named `sample_aspect_ratio` and
`display_aspect_ratio` in the source are shortened to `sample_aspect` and
`display_aspect` here. -/

/-- Lowercase hex rendering of a nonnegative number, as JS `toString(16)`. -/
def hexStr (n : Int) : String :=
  String.mk (Nat.toDigits 16 n.toNat)

/-- `FRAME_RATES` (src/avs-video-common.ts lines 135-151). -/
def FRAME_RATES : List ℚ :=
  [0, 23.976, 24, 25, 29.97, 30, 50, 59.94, 60, 100, 120, 200, 240, 300, 119.88]

/-- `AVS1_FRAME_RATES = FRAME_RATES.slice(0, 9)` (src/avs1-common.ts line 3). -/
def AVS1_FRAME_RATES : List ℚ := FRAME_RATES.take 9

/-- `AVS1Utils.getFrameRate` (src/avs1-common.ts lines 100-106). -/
def AVS1Utils.getFrameRate (frame_rate_code : Int) : ℚ :=
  if frame_rate_code < 0 ∨ frame_rate_code ≥ AVS1_FRAME_RATES.length then 0
  else AVS1_FRAME_RATES.getD frame_rate_code.toNat 0

/-- `{ luma_bit_depth, chroma_bit_depth }` pairs. -/
structure BitDepthInfo where
  luma_bit_depth : Int
  chroma_bit_depth : Int
deriving Repr, DecidableEq

/-- `AVS1Utils.getBitDepthFromSamplePrecision` (src/avs1-common.ts
lines 83-95). -/
def AVS1Utils.getBitDepthFromSamplePrecision (sample_precision : Int) :
    BitDepthInfo :=
  match sample_precision with
  | 0 => ⟨-1, -1⟩
  | 1 => ⟨8, 8⟩
  | 2 => ⟨0, 0⟩
  | 3 => ⟨10, 10⟩
  | 4 => ⟨0, 0⟩
  | 5 => ⟨12, 12⟩
  | 6 => ⟨0, 0⟩
  | 7 => ⟨0, 0⟩
  | _ => ⟨0, 0⟩

/-- `AVS1Utils.getProfileName` (src/avs1-common.ts lines 43-52). -/
def AVS1Utils.getProfileName (profile : Int) : String :=
  match profile with
  | 0x20 => "基准档次 (Jizhun Profile)"
  | 0x24 => "伸展档次 (Shenzhan Profile)"
  | 0x32 => "移动档次 (Yidong Profile)"
  | 0x40 => "加强档次 (Jiaqiang Profile)"
  | 0x48 => "广播档次 (Broadcasting Profile)"
  | _ => "Unknown Profile (0x" ++ hexStr profile ++ ")"

/-- `AVS1Utils.getLevelName` (src/avs1-common.ts lines 57-78). -/
def AVS1Utils.getLevelName (level : Int) : String :=
  match level with
  | 0x00 => "Forbidden"
  | 0x04 => "1.0.0.08.07"
  | 0x06 => "1.0.0.08.15"
  | 0x08 => "1.0.0.08.30"
  | 0x10 => "2.0.0.08.30"
  | 0x12 => "2.1.0.08.15"
  | 0x14 => "2.1.0.08.30"
  | 0x20 => "4.0.0.08.30"
  | 0x22 => "4.2.0.08.30"
  | 0x24 => "4.0.0.10.30"
  | 0x26 => "4.0.0.12.30"
  | 0x2A => "4.0.2.08.60"
  | 0x40 => "6.0.0.08.60"
  | 0x41 => "6.0.1.08.60"
  | 0x42 => "6.2.0.08.60"
  | 0x44 => "6.0.3.08.60"
  | 0x46 => "6.0.5.08.60"
  | _ => "Unknown Level (0x" ++ hexStr level ++ ")"

/-- `AspectRatioInfo` (src/avs-video-common.ts lines 93-96). -/
structure AspectRatioInfo where
  sar : Option String
  dar : Option String
deriving Repr, DecidableEq

/-- `getAspectRatioInfo` (src/avs-video-common.ts lines 117-126). -/
def getAspectRatioInfo (aspectRatioValue : Int) : AspectRatioInfo :=
  match aspectRatioValue with
  | 0 => ⟨none, none⟩
  | 1 => ⟨some "1.0", none⟩
  | 2 => ⟨none, some "4:3"⟩
  | 3 => ⟨none, some "16:9"⟩
  | 4 => ⟨none, some "2.21:1"⟩
  | _ => ⟨none, none⟩

/-- Left-pad a string with zeros to length 3 (JS `padStart(3, '0')`). -/
def padStart3 (s : String) : String :=
  String.mk (List.replicate (3 - s.length) '0') ++ s

/-- `getVideoFormatName` (src/avs-video-common.ts lines 159-171). -/
def getVideoFormatName (videoFormat : Int) : String :=
  match videoFormat with
  | 0 => "分量信号 (Component)"
  | 1 => "PAL"
  | 2 => "NTSC"
  | 3 => "SECAM"
  | 4 => "MAC"
  | 5 => "未作规定的视频格式 (Unspecified video format)"
  | 6 => "保留 (Reserved)"
  | 7 => "保留 (Reserved)"
  | _ => "Unknown Video Format (0b" ++
      padStart3 (String.mk (Nat.toDigits 2 videoFormat.toNat)) ++ ")"

/-- `AVS1Analyzer.validateColorPrimaries` (src/unnamed/part_004
lines 237-245): 0 is forbidden (`null`), 1-8 valid, others RESERVED (= 3). -/
def validateColorPrimaries (value : Int) : Option Int :=
  if value = 0 then none
  else if 1 ≤ value ∧ value ≤ 8 then some value
  else some 3

/-- `AVS1Analyzer.validateTransferCharacteristics` (src/unnamed/part_004
lines 251-259): 0 forbidden, 1-10 valid, others RESERVED (= 3). -/
def validateTransferCharacteristics (value : Int) : Option Int :=
  if value = 0 then none
  else if 1 ≤ value ∧ value ≤ 10 then some value
  else some 3

/-- `AVS1Analyzer.validateMatrixCoefficients` (src/unnamed/part_004
lines 265-273): 0 forbidden, 1-7 valid, others RESERVED (= 3). -/
def validateMatrixCoefficients (value : Int) : Option Int :=
  if value = 0 then none
  else if 1 ≤ value ∧ value ≤ 7 then some value
  else some 3

/-- `AVS1Analyzer.convertAVS1StereoPackingMode` (src/unnamed/part_004
lines 99-107), into the unified `PackingMode` enum of
src/avs-video-common.ts lines 309-317 (`SBS = 0`, `OU = 1`, `QUAD = 2`,
`TD_OU = 3`, `TD_SBS = 4`, `MONO = 5`, `RESERVED = 6`). -/
def convertAVS1StereoPackingMode (mode : Int) : Int :=
  match mode with
  | 0 => 5  -- MODE_2D -> MONO
  | 1 => 0  -- SBS -> SBS
  | 2 => 1  -- OU -> OU
  | 3 => 6  -- RESERVED
  | _ => 6

/-- `SequenceDisplayExtension` of the AVS1 analyzer (src/unnamed/part_004
lines 34-44).  The colour fields hold number-or-`null`-or-`undefined`. -/
structure AVS1SequenceDisplayExtension where
  video_format : String
  sample_range : Int
  colour_description : Option (Option Int)
  colour_primaries : Option (Option Int)
  transfer_characteristics : Option (Option Int)
  matrix_coefficients : Option (Option Int)
  display_horizontal_size : Int
  display_vertical_size : Int
  packing_mode : Int
deriving Repr, DecidableEq

/-- `AVS1SequenceHeader` (src/unnamed/part_004 lines 49-83).  The source
fields `sample_aspect_ratio` / `display_aspect_ratio` appear here as
`sample_aspect` / `display_aspect`. -/
structure AVS1SequenceHeader where
  generation_name : String
  profile_name : String
  level_name : String
  horizontal_size : Int
  vertical_size : Int
  chroma_format : Int
  luma_bit_depth : Int
  chroma_bit_depth : Int
  progressive : Bool
  frame_rate : ℚ
  sample_aspect : Option String
  display_aspect : Option String
  bit_rate : Int
  bbv_buffer_size : Int
  low_delay : Bool
  fixed_pic_rate : Bool
  background_picture_disable : Bool
  core_picture_disable : Bool
  core_picture_buffer_size : Int
  slice_set_disable : Bool
  scene_model : Int
deriving Repr, DecidableEq

/-- `AVS1Analyzer.parseSequenceHeader` (src/unnamed/part_004 lines 295-429). -/
def avs1ParseSequenceHeader (r : BitReader) :
    Except JSError AVS1SequenceHeader := do
  let r := r.skipBits 32  -- Skip sequence_start_code (00 00 01 B0)
  let (profile_id, r) ← r.readBits 8
  let (level_id, r) ← r.readBits 8
  let (progressiveBit, r) ← r.readBits 1
  let progressive := progressiveBit == 1
  let (horizontal_size, r) ← r.readBits 14
  let (vertical_size, r) ← r.readBits 14
  let (chroma_format_value, r) ← r.readBits 2
  let (sample_precision, r) ← r.readBits 3
  let (aspect_ratio_value, r) ← r.readBits 4
  let (frame_rate_code, r) ← r.readBits 4
  let (bit_rate_lower, r) ← r.readBits 18
  let r ← r.checkMarkerBit
  let (bit_rate_upper, r) ← r.readBits 12
  let (lowDelayBit, r) ← r.readBits 1
  let low_delay := lowDelayBit == 1
  let r ← r.checkMarkerBit
  let (bbv_buffer_size, r) ← r.readBits 18
  let (background_picture_disable, core_picture_disable,
       core_picture_buffer_size, slice_set_disable, scene_model, _r) ←
    if profile_id = 0x24 then do  -- Shenzhan Profile
      let (b1, r) ← r.readBits 1
      let background_picture_disable := b1 == 1
      let (b2, r) ← r.readBits 1
      let core_picture_disable := b2 == 1
      let (core_picture_buffer_size, r) ←
        if core_picture_disable = false then r.readBits 4
        else pure ((0 : Int), r)
      let (b3, r) ← r.readBits 1
      let slice_set_disable := b3 == 1
      let r ← r.checkMarkerBit
      let (scene_model, r) ← r.readBits 4
      let r := if core_picture_disable = false then r.skipBits 3 else r.skipBits 5
      pure (background_picture_disable, core_picture_disable,
            core_picture_buffer_size, slice_set_disable, scene_model, r)
    else
      pure (false, false, (0 : Int), false, (0 : Int), r.skipBits 3)
  let aspect_info := getAspectRatioInfo aspect_ratio_value
  let final_bit_rate := (jsShl bit_rate_upper 18 + bit_rate_lower) * 400
  let bitDepth := AVS1Utils.getBitDepthFromSamplePrecision sample_precision
  pure { generation_name := if profile_id = 0x48 then "AVS+" else "AVS"
         profile_name := AVS1Utils.getProfileName profile_id
         level_name := AVS1Utils.getLevelName level_id
         horizontal_size, vertical_size
         chroma_format := chroma_format_value
         luma_bit_depth := bitDepth.luma_bit_depth
         chroma_bit_depth := bitDepth.chroma_bit_depth
         progressive
         frame_rate := AVS1Utils.getFrameRate frame_rate_code
         sample_aspect := aspect_info.sar
         display_aspect := aspect_info.dar
         bit_rate := final_bit_rate
         bbv_buffer_size, low_delay
         fixed_pic_rate := !low_delay
         background_picture_disable, core_picture_disable,
         core_picture_buffer_size, slice_set_disable, scene_model }

/-- `AVS1Analyzer.parseSequenceDisplayExtension` (src/unnamed/part_004
lines 141-229); its internal try/catch turns any throw into `null`. -/
def avs1ParseSequenceDisplayExtension (r : BitReader) :
    Option AVS1SequenceDisplayExtension :=
  match (do
    let r := r.skipBits 32  -- skip extension_start_code (00 00 01 B5)
    let r := r.skipBits 4   -- skip extension_id
    let (video_format, r) ← r.readBits 3
    let (sample_range, r) ← r.readBits 1
    let (cdBit, r) ← r.readBits 1
    let colour_description_flag := cdBit == 1
    let (colour_primaries, transfer_characteristics, matrix_coefficients, r) ←
      if colour_description_flag then do
        let (p, r) ← r.readBits 8
        let (t, r) ← r.readBits 8
        let (m, r) ← r.readBits 8
        pure (some p, some t, some m, r)
      else pure ((none : Option Int), (none : Option Int), (none : Option Int), r)
    let (display_horizontal_size, r) ← r.readBits 14
    let r ← r.checkMarkerBit
    let (display_vertical_size, r) ← r.readBits 14
    let (stereo_packing_mode, _r) ← r.readBits 2
    let validated_primaries : Option (Option Int) :=
      colour_primaries.map validateColorPrimaries
    let validated_transfer : Option (Option Int) :=
      transfer_characteristics.map validateTransferCharacteristics
    let validated_matrix : Option (Option Int) :=
      matrix_coefficients.map validateMatrixCoefficients
    let colour_description : Option (Option Int) :=
      match validated_primaries, validated_transfer, validated_matrix with
      | some (some p), some (some t), some (some m) =>
        if colour_description_flag then
          some (getCombinedColorDescription p t m)
        else none
      | _, _, _ => none
    pure { video_format := getVideoFormatName video_format
           sample_range
           colour_description
           colour_primaries := validated_primaries
           transfer_characteristics := validated_transfer
           matrix_coefficients := validated_matrix
           display_horizontal_size, display_vertical_size
           packing_mode := convertAVS1StereoPackingMode stereo_packing_mode
           : AVS1SequenceDisplayExtension}
    : Except JSError AVS1SequenceDisplayExtension) with
  | .ok ext => some ext
  | .error _ => none

/-- `AVS1SequenceInfo`: the JS spread merge `{ ...sequenceHeader,
...displayExtension }` (field names do not overlap, so a pair is faithful). -/
structure AVS1SequenceInfo where
  header : AVS1SequenceHeader
  ext : Option AVS1SequenceDisplayExtension
deriving Repr, DecidableEq

/-- The scan loop of `AVS1Analyzer.analyze` (src/unnamed/part_004
lines 434-486), with the two loop-carried variables `sequenceHeader` and
`displayExtension` explicit.  The `0xB5` arm parses the display extension
whenever the next nibble is `0b0010`, with no check that a sequence header
was already captured.  `fuel` dominates the iteration count
(`offset` grows each pass, so `data.length` suffices). -/
def avs1AnalyzeGo (data : List Nat) :
    Nat → Nat → Option AVS1SequenceHeader →
    Option AVS1SequenceDisplayExtension →
    (Option AVS1SequenceHeader × Option AVS1SequenceDisplayExtension)
  | 0, _, seqHdr, dispExt => (seqHdr, dispExt)
  | fuel + 1, offset, seqHdr, dispExt =>
    if offset + 4 < data.length then
      if data.getD offset 0 = 0x00 ∧ data.getD (offset + 1) 0 = 0x00 ∧
          data.getD (offset + 2) 0 = 0x01 then
        let startCode := data.getD (offset + 3) 0
        if startCode = 0xB0 then
          let seqHdr :=
            match avs1ParseSequenceHeader (BitReader.init data offset) with
            | .ok h => some h
            | .error _ => seqHdr
          avs1AnalyzeGo data fuel (offset + 4) seqHdr dispExt
        else if startCode = 0xB5 then
          let dispExt :=
            if offset + 4 < data.length ∧
                (data.getD (offset + 4) 0) >>> 4 = 0b0010 then
              avs1ParseSequenceDisplayExtension (BitReader.init data offset)
            else dispExt
          avs1AnalyzeGo data fuel (offset + 4) seqHdr dispExt
        else if startCode = 0xB3 ∨ startCode = 0xB6 then
          (seqHdr, dispExt)
        else
          avs1AnalyzeGo data fuel (offset + 4) seqHdr dispExt
      else
        avs1AnalyzeGo data fuel (offset + 1) seqHdr dispExt
    else (seqHdr, dispExt)

/-- `AVS1Analyzer.analyze` (src/unnamed/part_004 lines 434-486). -/
def avs1Analyze (data : List Nat) : Option AVS1SequenceInfo :=
  match avs1AnalyzeGo data (data.length + 1) 0 none none with
  | (some h, ext) => some { header := h, ext := ext }
  | (none, _) => none

/-! ## AVS3 analyzer

From src/unnamed/part_006 (`AVS3Analyzer`) and the `AVS3Utils` part of
src/utils.ts (second document: avs3-common).  The source field
`log2_max_part_ratio` appears here as `log2_max_part_rat`. -/

/-- `AVS3Utils.getProfileName` (avs3-common lines 204-213). -/
def AVS3Utils.getProfileName (profileId : Int) : String :=
  match profileId with
  | 0x00 => "禁止 (Forbidden)"
  | 0x20 => "基准8位档次 (Main 8bit Profile)"
  | 0x22 => "基准10位档次 (Main 10bit Profile)"
  | 0x30 => "加强8位档次 (High 8bit Profile)"
  | 0x32 => "加强10位档次 (High 10bit Profile)"
  | _ => "保留 (Reserved, 0x" ++ hexStr profileId ++ ")"

/-- `AVS3Utils.getLevelName` (avs3-common lines 218-264). -/
def AVS3Utils.getLevelName (levelId : Int) : String :=
  match levelId with
  | 0x00 => "禁止 (Forbidden)"
  | 0x10 => "2.0.15"
  | 0x12 => "2.0.30"
  | 0x14 => "2.0.60"
  | 0x20 => "4.0.30"
  | 0x22 => "4.0.60"
  | 0x40 => "6.0.30"
  | 0x41 => "6.4.30"
  | 0x42 => "6.2.30"
  | 0x43 => "6.6.30"
  | 0x44 => "6.0.60"
  | 0x45 => "6.4.60"
  | 0x46 => "6.2.60"
  | 0x47 => "6.6.60"
  | 0x48 => "6.0.120"
  | 0x49 => "6.4.120"
  | 0x4A => "6.2.120"
  | 0x4B => "6.6.120"
  | 0x50 => "8.0.30"
  | 0x51 => "8.4.30"
  | 0x52 => "8.2.30"
  | 0x53 => "8.6.30"
  | 0x54 => "8.0.60"
  | 0x55 => "8.4.60"
  | 0x56 => "8.2.60"
  | 0x57 => "8.6.60"
  | 0x58 => "8.0.120"
  | 0x59 => "8.4.120"
  | 0x5A => "8.2.120"
  | 0x5B => "8.6.120"
  | 0x60 => "10.0.30"
  | 0x61 => "10.4.30"
  | 0x62 => "10.2.30"
  | 0x63 => "10.6.30"
  | 0x64 => "10.0.60"
  | 0x65 => "10.4.60"
  | 0x66 => "10.2.60"
  | 0x67 => "10.6.60"
  | 0x68 => "10.0.120"
  | 0x69 => "10.4.120"
  | 0x6A => "10.2.120"
  | 0x6B => "10.6.120"
  | _ => "保留 (Reserved, 0x" ++ hexStr levelId ++ ")"

/-- `AVS3Utils.getFrameRate` (avs3-common lines 269-275). -/
def AVS3Utils.getFrameRate (frame_rate_code : Int) : ℚ :=
  if 0 ≤ frame_rate_code ∧ frame_rate_code < FRAME_RATES.length then
    FRAME_RATES.getD frame_rate_code.toNat 0
  else 0

/-- `AVS3Utils.getBitDepthFromPrecision` (avs3-common lines 277-289). -/
def AVS3Utils.getBitDepthFromPrecision (id : Int) : BitDepthInfo :=
  match id with
  | 0 => ⟨-1, -1⟩
  | 1 => ⟨8, 8⟩
  | 2 => ⟨10, 10⟩
  | 3 => ⟨0, 0⟩
  | 4 => ⟨0, 0⟩
  | 5 => ⟨0, 0⟩
  | 6 => ⟨0, 0⟩
  | 7 => ⟨0, 0⟩
  | _ => ⟨0, 0⟩

/-- `AVS3Utils.getColorPrimaries` (avs3-common lines 296-301). -/
def AVS3Utils.getColorPrimaries (primaries : Int) : Option Int :=
  if primaries = 0 then none else some primaries

/-- `AVS3Utils.getTransferCharacteristics` (avs3-common lines 308-316):
0 forbidden, 13 RESERVED (= 3), otherwise kept. -/
def AVS3Utils.getTransferCharacteristics (characteristics : Int) : Option Int :=
  if characteristics = 0 then none
  else if characteristics = 13 then some 3
  else some characteristics

/-- `AVS3Utils.getMatrixCoefficients` (avs3-common lines 323-331):
0 forbidden, values above 9 RESERVED (= 3), otherwise kept. -/
def AVS3Utils.getMatrixCoefficients (coefficients : Int) : Option Int :=
  if coefficients = 0 then none
  else if coefficients > 9 then some 3
  else some coefficients

/-- `DEFAULT_WEIGHT_QUANT_MATRIX_4X4` (src/avs-video-common.ts
lines 362-367). -/
def DEFAULT_WEIGHT_QUANT_MATRIX_4X4 : List (List Int) :=
  [[64, 64, 64, 68],
   [64, 64, 68, 72],
   [64, 68, 76, 80],
   [72, 76, 84, 96]]

/-- `DEFAULT_WEIGHT_QUANT_MATRIX_8X8` (src/avs-video-common.ts
lines 373-382). -/
def DEFAULT_WEIGHT_QUANT_MATRIX_8X8 : List (List Int) :=
  [[64, 64, 64, 64, 68, 68, 72, 76],
   [64, 64, 64, 68, 72, 76, 84, 92],
   [64, 64, 68, 72, 76, 80, 88, 100],
   [64, 68, 72, 80, 84, 92, 100, 112],
   [68, 72, 80, 84, 92, 104, 112, 128],
   [76, 80, 84, 92, 104, 116, 132, 152],
   [96, 100, 104, 116, 124, 140, 164, 188],
   [104, 108, 116, 128, 152, 172, 192, 216]]

/-- `ReferencePictureListSet` (src/unnamed/part_006 lines 24-29).  JS builds
`referenced_library_picture_index` and `delta_doi` as sparse arrays indexed
by `i`; they are modelled as the packed lists of assigned entries, in order. -/
structure ReferencePictureListSet where
  reference_to_library_enable_flag : Option Bool
  library_index_flag : List Bool
  referenced_library_picture_index : List Int
  delta_doi : List Int
deriving Repr, DecidableEq

/-- The per-reference loop of `AVS3Analyzer.parseReferencePictureListSet`
(src/unnamed/part_006 lines 880-895), structurally on the count. -/
def rplsItems (rtle : Option Bool) :
    Nat → BitReader → Except JSError (List Bool × List Int × List Int × BitReader)
  | 0, r => .ok ([], [], [], r)
  | n + 1, r => do
    let (lif, r) ←
      if rtle = some true then do
        let (b, r) ← r.readBits 1
        pure (b == 1, r)
      else pure (false, r)
    if lif then do
      let (idx, r) ← r.readUE
      let (lifs, idxs, dois, r) ← rplsItems rtle n r
      .ok (lif :: lifs, idx :: idxs, dois, r)
    else do
      let (delta, r) ← r.readUE
      let (delta, r) ←
        if delta > 0 then do
          let (s, r) ← r.readBits 1
          pure (if s == 1 then -delta else delta, r)
        else pure (delta, r)
      let (lifs, idxs, dois, r) ← rplsItems rtle n r
      .ok (lif :: lifs, idxs, delta :: dois, r)

/-- `AVS3Analyzer.parseReferencePictureListSet` (src/unnamed/part_006
lines 872-903).  `reference_to_library_enable_flag =
library_picture_enable_flag && reader.readBits(1) === 1`: the read happens
only when `library_picture_enable_flag` is truthy, and the stored value is
`undefined` / `false` / the read bit accordingly. -/
def parseReferencePictureListSet (r : BitReader)
    (library_picture_enable_flag : Option Bool) :
    Except JSError (ReferencePictureListSet × BitReader) := do
  let (rtle, r) ←
    match library_picture_enable_flag with
    | some true => do
      let (b, r) ← r.readBits 1
      pure ((some (b == 1) : Option Bool), r)
    | some false => pure ((some false : Option Bool), r)
    | none => pure ((none : Option Bool), r)
  let (num_of_ref_pic, r) ← r.readUE
  let (lifs, idxs, dois, r) ← rplsItems rtle num_of_ref_pic.toNat r
  .ok ({ reference_to_library_enable_flag := rtle
         library_index_flag := lifs
         referenced_library_picture_index := idxs
         delta_doi := dois }, r)

/-- `Array.from({length: n}, () => parseReferencePictureListSet(...))`
(src/unnamed/part_006 lines 481 and 485), evaluated left to right. -/
def parseRPLSList (library_picture_enable_flag : Option Bool) :
    Nat → BitReader → Except JSError (List ReferencePictureListSet × BitReader)
  | 0, r => .ok ([], r)
  | n + 1, r => do
    let (s, r) ← parseReferencePictureListSet r library_picture_enable_flag
    let (rest, r) ← parseRPLSList library_picture_enable_flag n r
    .ok (s :: rest, r)

/-- One row of `weight_quant_coeff ue(v)` reads. -/
def readUERow : Nat → BitReader → Except JSError (List Int × BitReader)
  | 0, r => .ok ([], r)
  | n + 1, r => do
    let (v, r) ← r.readUE
    let (rest, r) ← readUERow n r
    .ok (v :: rest, r)

/-- Row-major `ue(v)` matrix read. -/
def readUEMatrix (cols : Nat) :
    Nat → BitReader → Except JSError (List (List Int) × BitReader)
  | 0, r => .ok ([], r)
  | rows + 1, r => do
    let (row, r) ← readUERow cols r
    let (rest, r) ← readUEMatrix cols rows r
    .ok (row :: rest, r)

/-- `AVS3Analyzer.parseWeightQuantMatrix` (src/unnamed/part_006
lines 831-846): 16 then 64 `ue(v)` codes, row-major, 4x4 first. -/
def parseWeightQuantMatrix (r : BitReader) :
    Except JSError ((List (List Int) × List (List Int)) × BitReader) := do
  let (wqm4x4, r) ← readUEMatrix 4 4 r
  let (wqm8x8, r) ← readUEMatrix 8 8 r
  .ok ((wqm4x4, wqm8x8), r)

/-- `AVS3SequenceHeader` (src/unnamed/part_006 lines 44-139). -/
structure AVS3SequenceHeader where
  generation_name : String
  profile_id : Int
  profile_name : String
  level_name : String
  progressive : Bool
  field_coded_sequence : Bool
  library_stream_flag : Bool
  library_picture_enable_flag : Option Bool
  duplicate_sequence_header_flag : Option Bool
  horizontal_size : Int
  vertical_size : Int
  chroma_format : Int
  luma_bit_depth : Int
  chroma_bit_depth : Int
  encoding_luma_bit_depth : Option Int
  encoding_chroma_bit_depth : Option Int
  sample_aspect : Option String
  display_aspect : Option String
  frame_rate : ℚ
  bit_rate : Int
  low_delay : Bool
  temporal_id_enable_flag : Bool
  bbv_buffer_size : Int
  max_dpb : Int
  rpl1_index_exist_flag : Bool
  rpl1_same_as_rpl0_flag : Bool
  reference_picture_list_sets : List (List ReferencePictureListSet)
  num_ref_default_active : List Int
  log2_lcu_size : Int
  log2_min_cu_size : Int
  log2_max_part_rat : Int
  max_split_times : Int
  log2_min_qt_size : Int
  log2_max_bt_size : Int
  log2_max_eqt_size : Int
  weight_quant_enable_flag : Bool
  weight_quant_matrix_4x4 : Option (List (List Int))
  weight_quant_matrix_8x8 : Option (List (List Int))
  st_enable_flag : Bool
  sao_enable_flag : Bool
  alf_enable_flag : Bool
  affine_enable_flag : Bool
  smvd_enable_flag : Bool
  ipcm_enable_flag : Bool
  amvr_enable_flag : Bool
  num_of_hmvp_cand : Int
  umve_enable_flag : Bool
  emvr_enable_flag : Option Bool
  intra_pf_enable_flag : Bool
  tscpm_enable_flag : Bool
  dt_enable_flag : Bool
  log2_max_dt_size : Option Int
  pbt_enable_flag : Bool
  eipm_enable_flag : Bool
  mipf_enable_flag : Bool
  intra_pf_chroma_enable_flag : Bool
  umve_enhancement_enable_flag : Bool
  affine_umve_enable_flag : Bool
  sb_tmvp_enable_flag : Bool
  srcc_enable_flag : Bool
  enhanced_st_enable_flag : Bool
  enhanced_tscpm_enable_flag : Bool
  maec_enable_flag : Bool
  pmc_enable_flag : Option Bool
  iip_enable_flag : Option Bool
  sawp_enable_flag : Option Bool
  asr_enable_flag : Option Bool
  awp_enable_flag : Option Bool
  etmvp_mvap_enable_flag : Option Bool
  dmvr_enable_flag : Option Bool
  bio_enable_flag : Option Bool
  bgc_enable_flag : Option Bool
  inter_pf_enable_flag : Option Bool
  inter_pc_enable_flag : Option Bool
  obmc_enable_flag : Option Bool
  sbt_enable_flag : Option Bool
  ist_enable_flag : Option Bool
  esao_enable_flag : Option Bool
  ccsao_enable_flag : Option Bool
  ealf_enable_flag : Option Bool
  ibc_enable_flag : Option Bool
  isc_enable_flag : Option Bool
  num_of_intra_hmvp_cand : Option Int
  fimc_enable_flag : Option Bool
  nn_tools_set_hook : Int
  num_of_nn_filter : Int
  output_reorder_delay : Option Int
  cross_patch_loop_filter_enable_flag : Bool
  ref_colocated_patch_flag : Bool
  stable_patch_flag : Bool
  uniform_patch_flag : Option Bool
  patch_width : Option Int
  patch_height : Option Int


/-- The tool flags produced by the `if (profile_id === 0x30 || profile_id ===
0x32)` enhanced-profile block of `AVS3Analyzer.parseSequenceHeader`
(src/unnamed/part_006 lines 557-675), gathered into one record so the block
can be factored out of the (inlined, in the source) parse function. -/
structure AVS3EnhancedToolFlags where
  eipm_enable_flag : Bool
  mipf_enable_flag : Bool
  intra_pf_chroma_enable_flag : Bool
  umve_enhancement_enable_flag : Bool
  affine_umve_enable_flag : Bool
  sb_tmvp_enable_flag : Bool
  srcc_enable_flag : Bool
  enhanced_st_enable_flag : Bool
  enhanced_tscpm_enable_flag : Bool
  maec_enable_flag : Bool
  pmc_enable_flag : Option Bool
  iip_enable_flag : Option Bool
  sawp_enable_flag : Option Bool
  asr_enable_flag : Option Bool
  awp_enable_flag : Option Bool
  etmvp_mvap_enable_flag : Option Bool
  dmvr_enable_flag : Option Bool
  bio_enable_flag : Option Bool
  bgc_enable_flag : Option Bool
  inter_pf_enable_flag : Option Bool
  inter_pc_enable_flag : Option Bool
  obmc_enable_flag : Option Bool
  sbt_enable_flag : Option Bool
  ist_enable_flag : Option Bool
  esao_enable_flag : Option Bool
  ccsao_enable_flag : Option Bool
  ealf_enable_flag : Option Bool
  ibc_enable_flag : Option Bool
  isc_enable_flag : Option Bool
  num_of_intra_hmvp_cand : Option Int
  fimc_enable_flag : Option Bool
  nn_tools_set_hook : Int
  num_of_nn_filter : Int
deriving Repr, DecidableEq

/-- The flag values when the enhanced-profile block is not entered
(the `let ... = false / undefined / 0` initialisations of
src/unnamed/part_006 lines 557-590). -/
def AVS3EnhancedToolFlags.defaults : AVS3EnhancedToolFlags :=
  { eipm_enable_flag := false, mipf_enable_flag := false
    intra_pf_chroma_enable_flag := false, umve_enhancement_enable_flag := false
    affine_umve_enable_flag := false, sb_tmvp_enable_flag := false
    srcc_enable_flag := false, enhanced_st_enable_flag := false
    enhanced_tscpm_enable_flag := false, maec_enable_flag := false
    pmc_enable_flag := none, iip_enable_flag := none, sawp_enable_flag := none
    asr_enable_flag := none, awp_enable_flag := none
    etmvp_mvap_enable_flag := none, dmvr_enable_flag := none
    bio_enable_flag := none, bgc_enable_flag := none
    inter_pf_enable_flag := none, inter_pc_enable_flag := none
    obmc_enable_flag := none, sbt_enable_flag := none, ist_enable_flag := none
    esao_enable_flag := none, ccsao_enable_flag := none
    ealf_enable_flag := none, ibc_enable_flag := none, isc_enable_flag := none
    num_of_intra_hmvp_cand := none, fimc_enable_flag := none
    nn_tools_set_hook := 0, num_of_nn_filter := 0 }

/-- The body of the enhanced-profile block (src/unnamed/part_006
lines 592-675), reading the high-profile tool flags; the basic-profile tool
flags read earlier feed the implied enables. -/
def avs3ParseEnhancedTools (r : BitReader) (st_enable_flag alf_enable_flag
    affine_enable_flag umve_enable_flag intra_pf_enable_flag
    tscpm_enable_flag : Bool) :
    Except JSError (AVS3EnhancedToolFlags × BitReader) := do
  let (b, r) ← r.readBits 1
  let pmc_enable_flag := b == 1
  let (b, r) ← r.readBits 1
  let iip_enable_flag := b == 1
  let (b, r) ← r.readBits 1
  let sawp_enable_flag := b == 1
  let (asr_enable_flag, r) ←
    if affine_enable_flag then do
      let (b, r) ← r.readBits 1
      pure ((some (b == 1) : Option Bool), r)
    else pure ((none : Option Bool), r)
  let (b, r) ← r.readBits 1
  let awp_enable_flag := b == 1
  let (b, r) ← r.readBits 1
  let etmvp_mvap_enable_flag := b == 1
  let (b, r) ← r.readBits 1
  let dmvr_enable_flag := b == 1
  let (b, r) ← r.readBits 1
  let bio_enable_flag := b == 1
  let (b, r) ← r.readBits 1
  let bgc_enable_flag := b == 1
  let (b, r) ← r.readBits 1
  let inter_pf_enable_flag := b == 1
  let (b, r) ← r.readBits 1
  let inter_pc_enable_flag := b == 1
  let (b, r) ← r.readBits 1
  let obmc_enable_flag := b == 1
  let (b, r) ← r.readBits 1
  let sbt_enable_flag := b == 1
  let (b, r) ← r.readBits 1
  let ist_enable_flag := b == 1
  let (b, r) ← r.readBits 1
  let esao_enable_flag := b == 1
  let (b, r) ← r.readBits 1
  let ccsao_enable_flag := b == 1
  let (ealf_enable_flag, r) ←
    if alf_enable_flag then do
      let (b, r) ← r.readBits 1
      pure ((some (b == 1) : Option Bool), r)
    else pure ((none : Option Bool), r)
  let (b, r) ← r.readBits 1
  let ibc_enable_flag := b == 1
  let r ← r.checkMarkerBit
  let (b, r) ← r.readBits 1
  let isc_enable_flag := b == 1
  let (num_of_intra_hmvp_cand, r) ←
    if ibc_enable_flag ∨ isc_enable_flag then do
      let (v, r) ← r.readBits 4
      pure ((some v : Option Int), r)
    else pure ((none : Option Int), r)
  let (b, r) ← r.readBits 1
  let fimc_enable_flag := b == 1
  let (nn_tools_set_hook, r) ← r.readBits 8
  let nn_filter_enable_flag := Int.land nn_tools_set_hook 0x01 == 1
  let (num_of_nn_filter, r) ←
    if nn_filter_enable_flag then do
      let (v, r) ← r.readUE
      pure (v + 1, r)
    else pure ((0 : Int), r)
  let r ← r.checkMarkerBit
  pure ({ eipm_enable_flag := true
          mipf_enable_flag := true
          intra_pf_chroma_enable_flag := intra_pf_enable_flag
          umve_enhancement_enable_flag := umve_enable_flag
          affine_umve_enable_flag := affine_enable_flag
          sb_tmvp_enable_flag := true
          srcc_enable_flag := true
          enhanced_st_enable_flag := st_enable_flag
          enhanced_tscpm_enable_flag := tscpm_enable_flag
          maec_enable_flag := true
          pmc_enable_flag := some pmc_enable_flag
          iip_enable_flag := some iip_enable_flag
          sawp_enable_flag := some sawp_enable_flag
          asr_enable_flag
          awp_enable_flag := some awp_enable_flag
          etmvp_mvap_enable_flag := some etmvp_mvap_enable_flag
          dmvr_enable_flag := some dmvr_enable_flag
          bio_enable_flag := some bio_enable_flag
          bgc_enable_flag := some bgc_enable_flag
          inter_pf_enable_flag := some inter_pf_enable_flag
          inter_pc_enable_flag := some inter_pc_enable_flag
          obmc_enable_flag := some obmc_enable_flag
          sbt_enable_flag := some sbt_enable_flag
          ist_enable_flag := some ist_enable_flag
          esao_enable_flag := some esao_enable_flag
          ccsao_enable_flag := some ccsao_enable_flag
          ealf_enable_flag
          ibc_enable_flag := some ibc_enable_flag
          isc_enable_flag := some isc_enable_flag
          num_of_intra_hmvp_cand
          fimc_enable_flag := some fimc_enable_flag
          nn_tools_set_hook
          num_of_nn_filter }, r)

/-- `AVS3Analyzer.parseSequenceHeader` (src/unnamed/part_006 lines 415-811).
The marker bit between `tscpm_enable_flag` and `dt_enable_flag` is read
inside `try { reader.checkMarkerBit(); } catch { console.log(...) }`
(lines 541-545): a marker-bit violation there is swallowed — with the cursor
already advanced past the offending bit — while every other
`checkMarkerBit` aborts the parse. -/
def avs3ParseSequenceHeader (r : BitReader) :
    Except JSError AVS3SequenceHeader := do
  let r := r.skipBits 32
  let (profile_id, r) ← r.readBits 8
  let (level_id, r) ← r.readBits 8
  let (b, r) ← r.readBits 1
  let progressive_sequence := b == 1
  let (b, r) ← r.readBits 1
  let field_coded_sequence := b == 1
  let (b, r) ← r.readBits 1
  let library_stream_flag := b == 1
  let (library_picture_enable_flag, duplicate_sequence_header_flag, r) ←
    if !library_stream_flag then do
      let (b, r) ← r.readBits 1
      let lpef := b == 1
      if lpef then do
        let (b, r) ← r.readBits 1
        pure ((some lpef : Option Bool), (some (b == 1) : Option Bool), r)
      else
        pure ((some lpef : Option Bool), (none : Option Bool), r)
    else pure ((none : Option Bool), (none : Option Bool), r)
  let r ← r.checkMarkerBit
  let (horizontal_size, r) ← r.readBits 14
  let r ← r.checkMarkerBit
  let (vertical_size, r) ← r.readBits 14
  let (chroma_format_value, r) ← r.readBits 2
  let (sample_precision, r) ← r.readBits 3
  let bitDepth := AVS3Utils.getBitDepthFromPrecision sample_precision
  let (encoding_precision, r) ←
    if profile_id = 0x22 ∨ profile_id = 0x32 then do
      let (v, r) ← r.readBits 3
      pure ((some v : Option Int), r)
    else pure ((none : Option Int), r)
  let r ← r.checkMarkerBit
  let (aspect_ratio_value, r) ← r.readBits 4
  let aspect_info := getAspectRatioInfo aspect_ratio_value
  let (frame_rate_code, r) ← r.readBits 4
  let frame_rate := AVS3Utils.getFrameRate frame_rate_code
  let r ← r.checkMarkerBit
  let (bit_rate_lower, r) ← r.readBits 18
  let r ← r.checkMarkerBit
  let (bit_rate_upper, r) ← r.readBits 12
  let (b, r) ← r.readBits 1
  let low_delay := b == 1
  let (b, r) ← r.readBits 1
  let temporal_id_enable_flag := b == 1
  let r ← r.checkMarkerBit
  let (bbv_buffer_size, r) ← r.readBits 18
  let r ← r.checkMarkerBit
  let (v, r) ← r.readUE
  let max_dpb := v + 1
  let (b, r) ← r.readBits 1
  let rpl1_index_exist_flag := b == 1
  let (b, r) ← r.readBits 1
  let rpl1_same_as_rpl0_flag := b == 1
  let r ← r.checkMarkerBit
  let (num_ref_pic_list_set_0, r) ← r.readUE
  let (rpls0, r) ←
    parseRPLSList library_picture_enable_flag num_ref_pic_list_set_0.toNat r
  let (reference_picture_list_sets, r) ←
    if !rpl1_same_as_rpl0_flag then do
      let (num_ref_pic_list_set_1, r) ← r.readUE
      let (rpls1, r) ←
        parseRPLSList library_picture_enable_flag num_ref_pic_list_set_1.toNat r
      pure ([rpls0, rpls1], r)
    else pure ([rpls0], r)
  let (v, r) ← r.readUE
  let num_ref_default_active_0 := v + 1
  let (v, r) ← r.readUE
  let num_ref_default_active_1 := v + 1
  let num_ref_default_active :=
    [num_ref_default_active_0, num_ref_default_active_1]
  let (v, r) ← r.readBits 3
  let log2_lcu_size := v + 2
  let (v, r) ← r.readBits 2
  let log2_min_cu_size := v + 2
  let (v, r) ← r.readBits 2
  let log2_max_part_rat := v + 2
  let (v, r) ← r.readBits 3
  let max_split_times := v + 6
  let (v, r) ← r.readBits 3
  let log2_min_qt_size := v + 2
  let (v, r) ← r.readBits 3
  let log2_max_bt_size := v + 2
  let (v, r) ← r.readBits 2
  let log2_max_eqt_size := v + 3
  let r ← r.checkMarkerBit
  let (b, r) ← r.readBits 1
  let weight_quant_enable_flag := b == 1
  let (weight_quant_matrix_4x4, weight_quant_matrix_8x8, r) ←
    if weight_quant_enable_flag then do
      let (b, r) ← r.readBits 1
      let load_seq_weight_quant_data_flag := b == 1
      if load_seq_weight_quant_data_flag then do
        let ((wqm4x4, wqm8x8), r) ← parseWeightQuantMatrix r
        pure ((some wqm4x4 : Option (List (List Int))),
              (some wqm8x8 : Option (List (List Int))), r)
      else
        pure (some DEFAULT_WEIGHT_QUANT_MATRIX_4X4,
              some DEFAULT_WEIGHT_QUANT_MATRIX_8X8, r)
    else
      pure ((none : Option (List (List Int))),
            (none : Option (List (List Int))), r)
  let (b, r) ← r.readBits 1
  let st_enable_flag := b == 1
  let (b, r) ← r.readBits 1
  let sao_enable_flag := b == 1
  let (b, r) ← r.readBits 1
  let alf_enable_flag := b == 1
  let (b, r) ← r.readBits 1
  let affine_enable_flag := b == 1
  let (b, r) ← r.readBits 1
  let smvd_enable_flag := b == 1
  let (b, r) ← r.readBits 1
  let ipcm_enable_flag := b == 1
  let (b, r) ← r.readBits 1
  let amvr_enable_flag := b == 1
  let (num_of_hmvp_cand, r) ← r.readBits 4
  let (b, r) ← r.readBits 1
  let umve_enable_flag := b == 1
  let (emvr_enable_flag, r) ←
    if num_of_hmvp_cand ≠ 0 ∧ amvr_enable_flag then do
      let (b, r) ← r.readBits 1
      pure ((some (b == 1) : Option Bool), r)
    else pure ((none : Option Bool), r)
  let (b, r) ← r.readBits 1
  let intra_pf_enable_flag := b == 1
  let (b, r) ← r.readBits 1
  let tscpm_enable_flag := b == 1
  -- try { reader.checkMarkerBit(); } catch { console.log('Marker bit check
  -- failed'); }  (src/unnamed/part_006 lines 541-545): the violation is
  -- swallowed; `readBit` has already advanced the cursor unless it threw
  -- before mutating (end of buffer).
  let r :=
    match r.readBit with
    | .ok (_, r') => r'
    | .error _ => r
  let (b, r) ← r.readBits 1
  let dt_enable_flag := b == 1
  let (log2_max_dt_size, r) ←
    if dt_enable_flag then do
      let (v, r) ← r.readBits 2
      pure ((some (v + 4) : Option Int), r)
    else pure ((none : Option Int), r)
  let (b, r) ← r.readBits 1
  let pbt_enable_flag := b == 1
  let (tools, r) ←
    if profile_id = 0x30 ∨ profile_id = 0x32 then
      avs3ParseEnhancedTools r st_enable_flag alf_enable_flag
        affine_enable_flag umve_enable_flag intra_pf_enable_flag
        tscpm_enable_flag
    else pure (AVS3EnhancedToolFlags.defaults, r)
  let (output_reorder_delay, r) ←
    if !low_delay then do
      let (v, r) ← r.readBits 5
      pure ((some v : Option Int), r)
    else pure ((none : Option Int), r)
  let (b, r) ← r.readBits 1
  let cross_patch_loop_filter_enable_flag := b == 1
  let (b, r) ← r.readBits 1
  let ref_colocated_patch_flag := b == 1
  let (b, r) ← r.readBits 1
  let stable_patch_flag := b == 1
  let (uniform_patch_flag, patch_width, patch_height, r) ←
    if stable_patch_flag then do
      let (b, r) ← r.readBits 1
      let uniform_patch_flag := b == 1
      if uniform_patch_flag then do
        let r ← r.checkMarkerBit
        let (v, r) ← r.readUE
        let patch_width := v + 1
        let (v, r) ← r.readUE
        let patch_height := v + 1
        pure ((some uniform_patch_flag : Option Bool),
              (some patch_width : Option Int),
              (some patch_height : Option Int), r)
      else
        pure ((some uniform_patch_flag : Option Bool), (none : Option Int),
              (none : Option Int), r)
    else
      pure ((none : Option Bool), (none : Option Int), (none : Option Int), r)
  let r := r.skipBits 2
  let (encoding_luma_bit_depth, encoding_chroma_bit_depth) :=
    match encoding_precision with
    | some p =>
      let d := AVS3Utils.getBitDepthFromPrecision p
      ((some d.luma_bit_depth : Option Int), (some d.chroma_bit_depth : Option Int))
    | none => ((none : Option Int), (none : Option Int))
  let _r := r
  pure { generation_name := "AVS3"
         profile_id
         profile_name := AVS3Utils.getProfileName profile_id
         level_name := AVS3Utils.getLevelName level_id
         progressive := progressive_sequence
         field_coded_sequence, library_stream_flag
         library_picture_enable_flag, duplicate_sequence_header_flag
         horizontal_size, vertical_size
         chroma_format := chroma_format_value
         luma_bit_depth := bitDepth.luma_bit_depth
         chroma_bit_depth := bitDepth.chroma_bit_depth
         encoding_luma_bit_depth, encoding_chroma_bit_depth
         sample_aspect := aspect_info.sar
         display_aspect := aspect_info.dar
         frame_rate
         bit_rate := (jsShl bit_rate_upper 18 + bit_rate_lower) * 400
         low_delay, temporal_id_enable_flag, bbv_buffer_size, max_dpb
         rpl1_index_exist_flag, rpl1_same_as_rpl0_flag
         reference_picture_list_sets, num_ref_default_active
         log2_lcu_size, log2_min_cu_size, log2_max_part_rat, max_split_times
         log2_min_qt_size, log2_max_bt_size, log2_max_eqt_size
         weight_quant_enable_flag
         weight_quant_matrix_4x4, weight_quant_matrix_8x8
         st_enable_flag, sao_enable_flag, alf_enable_flag, affine_enable_flag
         smvd_enable_flag, ipcm_enable_flag, amvr_enable_flag
         num_of_hmvp_cand, umve_enable_flag, emvr_enable_flag
         intra_pf_enable_flag, tscpm_enable_flag, dt_enable_flag
         log2_max_dt_size, pbt_enable_flag
         eipm_enable_flag := tools.eipm_enable_flag
         mipf_enable_flag := tools.mipf_enable_flag
         intra_pf_chroma_enable_flag := tools.intra_pf_chroma_enable_flag
         umve_enhancement_enable_flag := tools.umve_enhancement_enable_flag
         affine_umve_enable_flag := tools.affine_umve_enable_flag
         sb_tmvp_enable_flag := tools.sb_tmvp_enable_flag
         srcc_enable_flag := tools.srcc_enable_flag
         enhanced_st_enable_flag := tools.enhanced_st_enable_flag
         enhanced_tscpm_enable_flag := tools.enhanced_tscpm_enable_flag
         maec_enable_flag := tools.maec_enable_flag
         pmc_enable_flag := tools.pmc_enable_flag
         iip_enable_flag := tools.iip_enable_flag
         sawp_enable_flag := tools.sawp_enable_flag
         asr_enable_flag := tools.asr_enable_flag
         awp_enable_flag := tools.awp_enable_flag
         etmvp_mvap_enable_flag := tools.etmvp_mvap_enable_flag
         dmvr_enable_flag := tools.dmvr_enable_flag
         bio_enable_flag := tools.bio_enable_flag
         bgc_enable_flag := tools.bgc_enable_flag
         inter_pf_enable_flag := tools.inter_pf_enable_flag
         inter_pc_enable_flag := tools.inter_pc_enable_flag
         obmc_enable_flag := tools.obmc_enable_flag
         sbt_enable_flag := tools.sbt_enable_flag
         ist_enable_flag := tools.ist_enable_flag
         esao_enable_flag := tools.esao_enable_flag
         ccsao_enable_flag := tools.ccsao_enable_flag
         ealf_enable_flag := tools.ealf_enable_flag
         ibc_enable_flag := tools.ibc_enable_flag
         isc_enable_flag := tools.isc_enable_flag
         num_of_intra_hmvp_cand := tools.num_of_intra_hmvp_cand
         fimc_enable_flag := tools.fimc_enable_flag
         nn_tools_set_hook := tools.nn_tools_set_hook
         num_of_nn_filter := tools.num_of_nn_filter
         output_reorder_delay, cross_patch_loop_filter_enable_flag
         ref_colocated_patch_flag, stable_patch_flag, uniform_patch_flag
         patch_width, patch_height }

/-- `AVS3SequenceDisplayExtension` (src/unnamed/part_006 lines 144-155). -/
structure AVS3SequenceDisplayExtension where
  video_format : String
  sample_range : Int
  colour_description : Option (Option Int)
  colour_primaries : Option (Option Int)
  transfer_characteristics : Option (Option Int)
  matrix_coefficients : Option (Option Int)
  display_horizontal_size : Int
  display_vertical_size : Int
  packing_mode : Int
  view_reverse_flag : Option Bool
deriving Repr, DecidableEq

/-- `AVS3Analyzer.parseSequenceDisplayExtension` (src/unnamed/part_006
lines 929-993); the internal try/catch turns any throw into `null`. -/
def avs3ParseSequenceDisplayExtension (r : BitReader) :
    Option AVS3SequenceDisplayExtension :=
  match (do
    let r := r.skipBits 32  -- Skip extension_start_code (00 00 01 B5)
    let r := r.skipBits 4   -- Skip extension_id (should be 0b0010)
    let (video_format, r) ← r.readBits 3
    let (sample_range, r) ← r.readBits 1
    let (b, r) ← r.readBits 1
    let colour_description_flag := b == 1
    let (colour_primaries, transfer_characteristics, matrix_coefficients, r) ←
      if colour_description_flag then do
        let (p, r) ← r.readBits 8
        let (t, r) ← r.readBits 8
        let (m, r) ← r.readBits 8
        pure ((some p : Option Int), (some t : Option Int),
              (some m : Option Int), r)
      else
        pure ((none : Option Int), (none : Option Int), (none : Option Int), r)
    let (display_horizontal_size, r) ← r.readBits 14
    let r ← r.checkMarkerBit
    let (display_vertical_size, r) ← r.readBits 14
    let (b, r) ← r.readBits 1
    let td_mode_flag := b == 1
    let (td_packing_mode, view_reverse_flag, _r) ←
      if td_mode_flag then do
        let (v, r) ← r.readBits 8
        let (b, r) ← r.readBits 1
        pure ((some v : Option Int), (some (b == 1) : Option Bool), r)
      else pure ((none : Option Int), (none : Option Bool), r)
    let validated_primaries : Option (Option Int) :=
      colour_primaries.map AVS3Utils.getColorPrimaries
    let validated_transfer : Option (Option Int) :=
      transfer_characteristics.map AVS3Utils.getTransferCharacteristics
    let validated_matrix : Option (Option Int) :=
      matrix_coefficients.map AVS3Utils.getMatrixCoefficients
    -- td_mode_flag ? (td_packing_mode <= 2 ? td_packing_mode : RESERVED)
    --             : MONO
    let packing_mode : Int :=
      if td_mode_flag then
        match td_packing_mode with
        | some v => if v ≤ 2 then v else 6
        | none => 6
      else 5
    let colour_description : Option (Option Int) :=
      match validated_primaries, validated_transfer, validated_matrix with
      | some (some p), some (some t), some (some m) =>
        if colour_description_flag then
          some (getCombinedColorDescription p t m)
        else none
      | _, _, _ => none
    pure { video_format := getVideoFormatName video_format
           sample_range
           colour_description
           colour_primaries := validated_primaries
           transfer_characteristics := validated_transfer
           matrix_coefficients := validated_matrix
           display_horizontal_size, display_vertical_size
           packing_mode
           view_reverse_flag
           : AVS3SequenceDisplayExtension}
    : Except JSError AVS3SequenceDisplayExtension) with
  | .ok ext => some ext
  | .error _ => none

/-- `AVS3HDRDynamicMetadataExtension` (src/unnamed/part_006 lines 160-162):
`HDRDynamicMetadataType.HDR_VIVID = 5`, `Reserved` auto-assigned 6. -/
structure AVS3HDRDynamicMetadataExtension where
  hdr_dynamic_metadata_type : Int
deriving Repr, DecidableEq

/-- `AVS3Analyzer.parseHDRDynamicMetadataExtension` (src/unnamed/part_006
lines 1007-1022). -/
def avs3ParseHDRDynamicMetadataExtension (r : BitReader) :
    Option AVS3HDRDynamicMetadataExtension :=
  match (do
    let r := r.skipBits 32  -- Skip extension_start_code (00 00 01 B5)
    let r := r.skipBits 4   -- Skip extension_id (should be 0b0101)
    let (v, _r) ← r.readBits 4
    pure { hdr_dynamic_metadata_type := if v = 5 then (5 : Int) else 6
           : AVS3HDRDynamicMetadataExtension }
    : Except JSError AVS3HDRDynamicMetadataExtension) with
  | .ok ext => some ext
  | .error _ => none

/-- `AVS3SequenceInfo`: the spread merge `{ ...sequenceHeader,
...displayExtension, ...hdrDynamicMetadataExtension }` (field names do not
overlap, so a record of the three parts is faithful). -/
structure AVS3SequenceInfo where
  header : AVS3SequenceHeader
  ext : Option AVS3SequenceDisplayExtension
  hdr : Option AVS3HDRDynamicMetadataExtension

/-- The scan loop of `AVS3Analyzer.analyze` (src/unnamed/part_006
lines 180-240): unlike the AVS1 analyzer, both extension arms require the
sequence header to have been captured already.  `fuel` dominates the
iteration count. -/
def avs3AnalyzeGo (data : List Nat) :
    Nat → Nat → Option AVS3SequenceHeader →
    Option AVS3SequenceDisplayExtension →
    Option AVS3HDRDynamicMetadataExtension →
    (Option AVS3SequenceHeader × Option AVS3SequenceDisplayExtension ×
     Option AVS3HDRDynamicMetadataExtension)
  | 0, _, seqHdr, dispExt, hdrExt => (seqHdr, dispExt, hdrExt)
  | fuel + 1, offset, seqHdr, dispExt, hdrExt =>
    if offset + 4 < data.length then
      if data.getD offset 0 = 0x00 ∧ data.getD (offset + 1) 0 = 0x00 ∧
          data.getD (offset + 2) 0 = 0x01 then
        let startCode := data.getD (offset + 3) 0
        if startCode = 0xB0 then
          let seqHdr :=
            match avs3ParseSequenceHeader (BitReader.init data offset) with
            | .ok h => some h
            | .error _ => seqHdr
          avs3AnalyzeGo data fuel (offset + 4) seqHdr dispExt hdrExt
        else if startCode = 0xB5 then
          let (dispExt, hdrExt) :=
            if offset + 4 < data.length then
              let extension_id := (data.getD (offset + 4) 0) >>> 4
              if extension_id = 0b0010 then
                if seqHdr.isSome then
                  (avs3ParseSequenceDisplayExtension (BitReader.init data offset),
                   hdrExt)
                else (dispExt, hdrExt)
              else if extension_id = 0b0101 then
                if seqHdr.isSome then
                  (dispExt,
                   avs3ParseHDRDynamicMetadataExtension (BitReader.init data offset))
                else (dispExt, hdrExt)
              else (dispExt, hdrExt)
            else (dispExt, hdrExt)
          avs3AnalyzeGo data fuel (offset + 4) seqHdr dispExt hdrExt
        else if startCode = 0xB3 ∨ startCode = 0xB6 then
          (seqHdr, dispExt, hdrExt)
        else
          avs3AnalyzeGo data fuel (offset + 4) seqHdr dispExt hdrExt
      else
        avs3AnalyzeGo data fuel (offset + 1) seqHdr dispExt hdrExt
    else (seqHdr, dispExt, hdrExt)

/-- `AVS3Analyzer.analyze` (src/unnamed/part_006 lines 180-240). -/
def avs3Analyze (data : List Nat) : Option AVS3SequenceInfo :=
  match avs3AnalyzeGo data (data.length + 1) 0 none none none with
  | (some h, ext, hdr) => some { header := h, ext := ext, hdr := hdr }
  | (none, _, _) => none

/-! ## Transport-stream packet loop

From `TSAnalyzer.parseTS` (src/ts-analyzer.ts lines 261-300).  A packet is
processed by `this.parsePacket(packet)` (lines 324-340), which is the only
place that can change the analyzer state consulted by the loop —
`allPmtsParsed` and `detectionPids` change inside `parsePSI`
(lines 729-735) and `detectAllCompletedPES`, `programs` / `streams` inside
`parsePMT`; all of them run within `parsePacket`.  The per-packet processing
is therefore abstracted as an arbitrary state transformer together with the
four observations the loop reads, and the loop itself is embedded verbatim;
the theorem about the loop then holds for every behaviour of `parsePacket`,
in particular the real one. -/

/-- The packet processor and the analyzer-state observations consulted by
the `parseTS` loop. -/
structure TSLoopModel (S : Type) where
  parsePacket : S → List Nat → S
  allPmtsParsed : S → Bool
  detectionPidsSize : S → Nat
  programsSize : S → Nat
  streamsSize : S → Nat

/-- JS `data.slice(a, b)`: the elements with indices in `[a, b)`. -/
def sliceList (data : List Nat) (a b : Nat) : List Nat :=
  (data.take b).drop a

/-- The `for (let i = startOffset; i < data.length; i += this.packetSize)`
loop of `TSAnalyzer.parseTS` (src/ts-analyzer.ts lines 261-300), recorded as
the trace of packets passed to `parsePacket` paired with the state right
after each call.  `fuel` dominates the iteration count (each pass advances
`i` by `packetSize ≥ 1`, so `data.length + 1` suffices when
`packetSize ≥ 1`; the source only ever uses 188 or 192). -/
def tsLoopGo {S : Type} (m : TSLoopModel S) (data : List Nat)
    (packetSize : Nat) (isPartialParse : Bool) :
    Nat → Nat → Nat → S → List (List Nat × S)
  | 0, _, _, _ => []
  | fuel + 1, i, processedPackets, s =>
    if i < data.length then
      if i + packetSize > data.length then []
      else
        let packet :=
          if packetSize = 192 then sliceList data (i + 4) (i + 192)
          else sliceList data i (i + packetSize)
        if packet.length < 188 ∨ packet.getD 0 0 ≠ 0x47 then
          tsLoopGo m data packetSize isPartialParse fuel (i + packetSize)
            processedPackets s
        else
          let s := m.parsePacket s packet
          let processedPackets := processedPackets + 1
          if isPartialParse ∧ processedPackets > 20000 ∧
              m.programsSize s > 0 ∧ m.streamsSize s > 0 then
            [(packet, s)]
          else if m.allPmtsParsed s ∧ m.detectionPidsSize s = 0 then
            [(packet, s)]
          else
            (packet, s) ::
              tsLoopGo m data packetSize isPartialParse fuel (i + packetSize)
                processedPackets s
    else []

/-- The packet-parse trace of `TSAnalyzer.parseTS` starting at
`startOffset` with `processedPackets = 0`. -/
def tsParseTrace {S : Type} (m : TSLoopModel S) (data : List Nat)
    (packetSize startOffset : Nat) (isPartialParse : Bool) (s0 : S) :
    List (List Nat × S) :=
  tsLoopGo m data packetSize isPartialParse (data.length + 1) startOffset 0 s0

/-! ## Byte packing and the spec encoder for Exp-Golomb

`bytesOfBits` packs an MSB-first bit string into bytes (zero-padded at the
end); `specEncodeUE` is the standard unsigned Exp-Golomb encoding procedure
as the specification states it: for `n`, emit `k` zeros, a one, then the
`k`-bit suffix, where `k = ⌊log2 (n+1)⌋` and `n = 2^k - 1 + suffix`. -/

/-- The byte with the eight given MSB-first bits. -/
def byteVal (b0 b1 b2 b3 b4 b5 b6 b7 : Bool) : Nat :=
  128 * b0.toNat + 64 * b1.toNat + 32 * b2.toNat + 16 * b3.toNat +
    8 * b4.toNat + 4 * b5.toNat + 2 * b6.toNat + b7.toNat

/-- Pack an MSB-first bit string into bytes, padding the final partial byte
with zeros. -/
def bytesOfBits : List Bool → List Nat
  | b0 :: b1 :: b2 :: b3 :: b4 :: b5 :: b6 :: b7 :: rest =>
    byteVal b0 b1 b2 b3 b4 b5 b6 b7 :: bytesOfBits rest
  | [] => []
  | l =>
    [byteVal (l.getD 0 false) (l.getD 1 false) (l.getD 2 false)
      (l.getD 3 false) (l.getD 4 false) (l.getD 5 false) (l.getD 6 false)
      (l.getD 7 false)]

/-- The MSB-first `k`-bit big-endian representation of `v`
(defined LSB-last: `natBits (k+1) v = natBits k (v / 2) ++ [v odd]`). -/
def natBits : Nat → Nat → List Bool
  | 0, _ => []
  | k + 1, v => natBits k (v / 2) ++ [v % 2 == 1]

/-- Floor base-2 logarithm, by structural recursion on a fuel argument that
dominates the number of halvings (`log2floorGo n n` computes `Nat.log2 n`
and reduces inside the kernel). -/
def log2floorGo : Nat → Nat → Nat
  | 0, _ => 0
  | fuel + 1, n => if n ≥ 2 then log2floorGo fuel (n / 2) + 1 else 0

/-- Floor base-2 logarithm (kernel-reducible `Nat.log2`). -/
def log2floor (n : Nat) : Nat := log2floorGo n n

/-- The standard unsigned Exp-Golomb code of `n` as the spec describes it:
`k` leading zeros, a one, then the `k`-bit suffix `n + 1 - 2^k` with
`k = ⌊log2 (n+1)⌋`. -/
def specEncodeUE (n : Nat) : List Bool :=
  let k := log2floor (n + 1)
  List.replicate k false ++ [true] ++ natBits k (n + 1 - 2 ^ k)

/-- The bit of `buf` at global MSB-first bit position `p`. -/
def bitAt (buf : List Nat) (p : Nat) : Nat :=
  buf.getD (p / 8) 0 / 2 ^ (7 - p % 8) % 2

/-- The value of the `n` bits of `buf` starting at bit position `p`,
MSB first. -/
def bitsVal (buf : List Nat) (p : Nat) : Nat → Nat
  | 0 => 0
  | n + 1 => bitsVal buf p n * 2 + bitAt buf (p + n)

/-- A trivial instantiation of `TSLoopModel` (state = packet count, the
early-exit condition never true) used to witness the loop theorem on a
concrete input. -/
def tsWitnessModel : TSLoopModel Nat :=
  { parsePacket := fun s _ => s + 1
    allPmtsParsed := fun _ => false
    detectionPidsSize := fun _ => 1
    programsSize := fun _ => 0
    streamsSize := fun _ => 0 }

/-- Two consecutive 188-byte TS packets with valid sync bytes. -/
def tsWitnessData : List Nat :=
  (0x47 :: List.replicate 187 0) ++ (0x47 :: List.replicate 187 0)

/-! ## Concrete sample inputs used by the claims -/

/-- AV3A frame: sync `0xFFF`, `audio_codec_id = 2` (GENERAL_FULL_BITRATE),
`nn_type = 0`, `coding_profile = BASIC`, `sampling_frequency_index = 0x2`,
`channel_number_index = 0x1` (STEREO), `resolution = 1`,
`bitrate_index = 7` — the spec's end-to-end scenario 1. -/
def av3aSampleGeneral : List Nat := [0xFF, 0xF2, 0x00, 0x40, 0x00, 0x57]

/-- AV3A frame with `audio_codec_id = 1` (LOSSLESS): sync `0xFFF`, codec 1,
`coding_profile = 0`, `sampling_frequency_index = 0x2`,
`raw_frame_length = 0`, CRC 0, 4-bit channel field 2, `resolution = 1`.
No branch of the parser assigns `bit_rate` for this codec. -/
def av3aSampleLossless : List Nat := [0xFF, 0xF1, 0x02, 0x00, 0x00, 0x00, 0x24]

/-- AV3A frame candidate whose `audio_codec_id` is 0
(GENERAL_HIGH_BITRATE): sync `0xFFF`, codec 0, `coding_profile = 0`,
`sampling_frequency_index = 0x2`, `raw_frame_length = 0`, CRC 0,
`resolution = 1`. -/
def av3aSampleCodec0 : List Nat := [0xFF, 0xF0, 0x02, 0x00, 0x00, 0x00, 0x40]

/-- AVS3 audio descriptor payload with `audio_codec_id = 2` and
`sampling_frequency_index = 2`. -/
def avs3AudioDescPayloadCodec2 : List Nat := [0x22, 0x00]

/-- An AVS1 elementary stream in which a sequence display extension
(`00 00 01 B5`, extension id `0b0010`, `display_horizontal_size = 1000`,
`display_vertical_size = 2000`) precedes the sequence header
(`00 00 01 B0`, profile `0x20`, 1280x720, frame-rate code 3, aspect code 2,
`bit_rate_lower = 12500`), followed by an I-picture start code
(`00 00 01 B3`). -/
def avs1SampleExtFirst : List Nat :=
  [0x00, 0x00, 0x01, 0xB5, 0x22, 0x07, 0xD1, 0x1F, 0x40,
   0x00, 0x00, 0x01, 0xB0, 0x20, 0x20, 0x8A, 0x00, 0x16, 0x82, 0x48, 0xC3,
   0x0D, 0x48, 0x00, 0x20, 0x1F, 0x40,
   0x00, 0x00, 0x01, 0xB3]

/-- An AVS3 sequence header (profile `0x20`, level `0x22`, 1920x1080,
`library_stream_flag = 1`, `low_delay = 1`, all optional tool branches off)
that is bit-exact valid except that the marker bit between
`tscpm_enable_flag` and `dt_enable_flag` is 0. -/
def avs3SampleMarkerZero : List Nat :=
  [0x00, 0x00, 0x01, 0xB0, 0x20, 0x22, 0xB1, 0xE0, 0x22, 0x1C, 0x26, 0x27,
   0x92, 0x7C, 0x20, 0x01, 0x5E, 0x00, 0x0D, 0xFA, 0xA0, 0xD6, 0xC0, 0x00,
   0x00]

/-! # Theorems -/

/-- Inversion for `Except.bind` hitting `.ok`. -/
theorem exceptBind_eq_ok {ε α β : Type} {x : Except ε α} {f : α → Except ε β}
    {b : β} : x >>= f = .ok b ↔ ∃ a, x = .ok a ∧ f a = .ok b := by
  cases x <;> simp [Bind.bind, Except.bind]

/-- **C9** (confirmed).  For an AV3A frame with sync `0xFFF`,
`audio_codec_id = 2`, `nn_type = 0`, `coding_profile = BASIC`,
`sampling_frequency_index = 0x2`, `channel_number_index = 0x1`,
`resolution = 1` and `bitrate_index = 7`, the analyzer returns
`audio_codec_id = GENERAL (2)`, `coding_profile = BASIC`,
`sampling_frequency = 48000`, `channel_configuration = STEREO (1)`,
`channel_number = 2`, `resolution = 16` and `bit_rate = 144000`. -/
theorem av3a_general_stereo_scenario :
    av3aAnalyze av3aSampleGeneral = some
      { audio_codec_id := 2, nn_type := some 0, coding_profile := 0,
        sampling_frequency := 48000, raw_frame_length := none,
        channel_number := some 2, channel_configuration := some 1,
        object_channel_number := none, order := none, resolution := 16,
        bit_rate := .num 144000 } := by decide

/-- **C3** (code_bug).  The claim states that on a branch that never assigns
a bit rate — here `audio_codec_id = 1` (LOSSLESS) — the returned record's
`bit_rate` field is absent.  The code instead executes `bit_rate *= 1000` on
the `undefined` variable, so the field is present and holds `NaN`. -/
theorem av3a_lossless_bit_rate_is_nan :
    (av3aAnalyze av3aSampleLossless).map
      (fun fh => (fh.audio_codec_id, fh.bit_rate)) = some (1, .nan) := by
  decide

/-- **C7** (code_bug).  The claim states that `parseAVS3AudioDescriptor` on a
payload with `audio_codec_id = 2` reads `nn_type`, the content-type branch
fields and `total_bitrate`, returning `bit_rate = total_bitrate * 1000`.
The code guards that branch with `audio_codec_id == AudioCodecId.GENERAL`,
where `GENERAL` is not a member of the `AudioCodecId` enum, so the
comparison is against `undefined` and is false for every number: for codec
id 2 the branch is skipped, and the returned record has no `nn_type` and no
`bit_rate`. -/
theorem avs3_audio_descriptor_codec2_branch_skipped :
    parseAVS3AudioDescriptor avs3AudioDescPayloadCodec2 = .ok (some
      { audio_codec_id := some 2, sampling_frequency := 48000,
        nn_type := none, coding_profile := none, channel_number := none,
        channel_configuration := none, object_channel_number := none,
        order := none, resolution := 8, bit_rate := none }) := rfl

/-- **C1** (code_bug).  The claim states that a zero at any mandated marker
bit of an AVS3 sequence header makes the parse fail with
`MarkerBitViolation` and emit no record, in particular at the marker between
`tscpm_enable_flag` and `dt_enable_flag`.  `avs3SampleMarkerZero` is valid
except that exactly this marker bit is 0, yet the analyzer emits a full
record (the `try/catch` of src/unnamed/part_006 lines 541-545 swallows the
violation): the analyzer's result is not `null`. -/
theorem avs3_tscpm_marker_violation_swallowed :
    (avs3Analyze avs3SampleMarkerZero).map
      (fun i => (i.header.horizontal_size, i.header.vertical_size,
                 i.header.profile_id, i.header.dt_enable_flag)) =
      some (1920, 1080, 0x20, false) := by decide

/-- **C8** counterexample.  In `avs1SampleExtFirst` the `0xB5` display
extension precedes every sequence header, so under the claim ("if no
sequence header has yet been parsed when the 0xB5 extension appears, no
display extension is parsed at that point") the returned info would carry no
extension data; the AVS1 analyzer parses and returns it nevertheless. -/
theorem avs1_ext_before_header_is_parsed :
    (avs1Analyze avs1SampleExtFirst).map (fun i => i.ext.isSome) =
      some true := by decide

/-- **C8** (corrected).  For every input, offset and loop state: when the
bytes at `offset` are `00 00 01 B5`, the next byte's high nibble is
`0b0010` and `offset + 4 < data.length`, the AVS1 scan step parses a
sequence display extension at this offset and installs it as the carried
extension — with no requirement on the current `sequenceHeader` state,
which may in particular still be `none`; the loop then continues with that
extension carried along, to be merged into the result once a sequence
header parses. -/
theorem avs1_ext_parsed_regardless_of_header (data : List Nat)
    (fuel offset : Nat) (seqHdr : Option AVS1SequenceHeader)
    (dispExt : Option AVS1SequenceDisplayExtension)
    (hlen : offset + 4 < data.length)
    (h0 : data.getD offset 0 = 0x00)
    (h1 : data.getD (offset + 1) 0 = 0x00)
    (h2 : data.getD (offset + 2) 0 = 0x01)
    (h3 : data.getD (offset + 3) 0 = 0xB5)
    (hnib : data.getD (offset + 4) 0 >>> 4 = 0b0010) :
    avs1AnalyzeGo data (fuel + 1) offset seqHdr dispExt =
      avs1AnalyzeGo data fuel (offset + 4) seqHdr
        (avs1ParseSequenceDisplayExtension (BitReader.init data offset)) := by
  rw [avs1AnalyzeGo]
  rw [if_pos hlen, if_pos ⟨h0, h1, h2⟩]
  dsimp only
  rw [h3]
  rw [if_neg (by decide), if_pos rfl, if_pos ⟨hlen, hnib⟩]

/-- Witness for the C8 theorem: the hypotheses hold at offset 0 of the
concrete `avs1SampleExtFirst` stream with `sequenceHeader` still `none`. -/
theorem avs1_ext_parsed_regardless_of_header_witness :
    (0 + 4 < avs1SampleExtFirst.length ∧
      avs1SampleExtFirst.getD 3 0 = 0xB5 ∧
      avs1SampleExtFirst.getD 4 0 >>> 4 = 0b0010) ∧
    avs1AnalyzeGo avs1SampleExtFirst 28 0 none none =
      avs1AnalyzeGo avs1SampleExtFirst 27 4 none
        (avs1ParseSequenceDisplayExtension
          (BitReader.init avs1SampleExtFirst 0)) :=
  ⟨⟨by decide, by decide, by decide⟩,
    avs1_ext_parsed_regardless_of_header avs1SampleExtFirst 27 0 none none
      (by decide) (by decide) (by decide) (by decide) (by decide)
      (by decide)⟩

/-- **C6** counterexample.  The claim states the scan accepts exactly
`audio_codec_id ∈ {1, 2}` and that no frame header is ever parsed from a
candidate with any other codec id; but `isValidAudioCodecId` also accepts
`GENERAL_HIGH_BITRATE = 0`, and the analyzer parses and returns a frame
header for this codec-0 candidate. -/
theorem av3a_codec0_frame_is_parsed :
    (av3aAnalyze av3aSampleCodec0).map (fun fh => fh.audio_codec_id) =
      some 0 ∧ AV3AUtils.isValidAudioCodecId 0 = true := by decide

/-- **C2** counterexample.  At the claimed endpoint `n = 2^31 - 1` (whose
Exp-Golomb code has `k = 31`), `readUE` succeeds but returns
`(1 << 31) - 1 + 0 = -2147483649`, because the JS `<<` wraps `1 << 31` to
`-2^31`; the decoded value is not `n`. -/
theorem readUE_endpoint_wraps :
    ((BitReader.init (bytesOfBits (specEncodeUE (2 ^ 31 - 1))) 0).readUE).map
      Prod.fst = .ok (-2147483649) ∧
    ((-2147483649 : Int) ≠ ((2 : Int) ^ 31 - 1)) := ⟨rfl, by decide⟩

/-- **C5** counterexample.  The claim states that for
`primaries = transfer = matrix = 4` the function returns
`ColorDescription.FCC` (whose value, 4, is a `ColorDescription` member
value); the code returns `null` for the common value 4. -/
theorem combined_color_4_is_null :
    getCombinedColorDescription 4 4 4 = none ∧
    isColorDescriptionValue ColorDescription_FCC = true := by decide

/-- **C5** (corrected).  The complete value table of
`getCombinedColorDescription`: it returns `BT709` exactly on the shortcut
triple `(1, 6, 1)`; otherwise, on an equal triple whose common value is a
`ColorDescription` member value other than `FCC = 4` and `BT709 = 8`
(i.e. in `{1, 2, 3, 5, 6, 7}`) it returns the `ColorDescription` member of
that common value; in every other case — including the equal triples
`(4, 4, 4)` and `(8, 8, 8)`, against the claim — it returns `null`. -/
theorem combined_color_characterization (p t m : Int) :
    getCombinedColorDescription p t m =
      (if p = 1 ∧ t = 6 ∧ m = 1 then some ColorDescription_BT709
       else if p = t ∧ t = m ∧ isColorDescriptionValue p = true ∧
           p ≠ ColorDescription_FCC ∧ p ≠ ColorDescription_BT709 then some p
       else none) := by
  unfold getCombinedColorDescription isColorDescriptionValue
    ColorDescription_FCC
  unfold ColorDescription_BT709
  split
  · rfl
  · split
    · rename_i hne heq
      obtain ⟨hpt, htm⟩ := heq
      subst hpt
      subst htm
      split <;> simp_all
      rw [if_neg (by omega)]
    · rw [if_neg (by tauto)]

/-- Membership in `dropLast` of a cons. -/
theorem mem_dropLast_cons {α : Type} {x a : α} {l : List α}
    (h : x ∈ (a :: l).dropLast) : x = a ∨ x ∈ l.dropLast := by
  cases l with
  | nil => simp at h
  | cons b t =>
    rw [List.dropLast_cons₂, List.mem_cons] at h
    exact h

/-- Every entry of the packet-parse trace except possibly the last has a
post-state that fails the early-exit condition. -/
theorem tsLoopGo_dropLast {S : Type} (m : TSLoopModel S) (data : List Nat)
    (packetSize : Nat) (isPartialParse : Bool) :
    ∀ (fuel i processedPackets : Nat) (s : S) (x : List Nat × S),
      x ∈ (tsLoopGo m data packetSize isPartialParse fuel i processedPackets
        s).dropLast →
      ¬(m.allPmtsParsed x.2 = true ∧ m.detectionPidsSize x.2 = 0) := by
  intro fuel
  induction fuel with
  | zero => intro i pp s x hx; simp [tsLoopGo] at hx
  | succ fuel ih =>
    intro i pp s x hx
    rw [tsLoopGo] at hx
    dsimp only at hx
    repeat' split at hx
    all_goals first
      | exact ih _ _ _ _ hx
      | simp at hx
      | (rename_i hcond
         rcases mem_dropLast_cons hx with h | h
         · subst h; simpa using hcond
         · exact ih _ _ _ _ h)

/-- **C4** (confirmed).  In the `parseTS` packet loop, once a packet's
processing makes `allPmtsParsed` true with an empty detection set, that
packet is the last one ever passed to `parsePacket`: every non-final entry
of the parse trace has a post-state violating the early-exit condition —
for every behaviour of the per-packet processing, in particular the real
one. -/
theorem tsLoop_no_parse_after_early_exit {S : Type} (m : TSLoopModel S)
    (data : List Nat) (packetSize startOffset : Nat) (isPartialParse : Bool)
    (s0 : S) (x : List Nat × S)
    (hx : x ∈ (tsParseTrace m data packetSize startOffset isPartialParse
      s0).dropLast) :
    ¬(m.allPmtsParsed x.2 = true ∧ m.detectionPidsSize x.2 = 0) :=
  tsLoopGo_dropLast m data packetSize isPartialParse _ _ _ _ x hx

set_option maxRecDepth 8000 in
/-- Witness for the C4 theorem at a concrete two-packet input. -/
theorem tsLoop_no_parse_after_early_exit_witness :
    ((0x47 :: List.replicate 187 0, 1) ∈
      (tsParseTrace tsWitnessModel tsWitnessData 188 0 false 0).dropLast) ∧
    ¬(tsWitnessModel.allPmtsParsed
        ((0x47 :: List.replicate 187 0, 1) : List Nat × Nat).2 = true ∧
      tsWitnessModel.detectionPidsSize
        ((0x47 :: List.replicate 187 0, 1) : List Nat × Nat).2 = 0) :=
  ⟨by decide,
   tsLoop_no_parse_after_early_exit tsWitnessModel tsWitnessData 188 0 false 0
     (0x47 :: List.replicate 187 0, 1) (by decide)⟩

/-- A successful `parseAATFFrameHeader` returns the codec id it was given. -/
theorem parseAATF_ok_codec {r : BitReader} {c : Int} {fh : AV3AFrameHeader}
    (h : parseAATFFrameHeader r c = .ok fh) : fh.audio_codec_id = c := by
  unfold parseAATFFrameHeader at h
  obtain ⟨⟨nn_type, r1⟩, -, h⟩ := exceptBind_eq_ok.mp h
  dsimp only at h
  obtain ⟨⟨cp_raw, r2⟩, -, h⟩ := exceptBind_eq_ok.mp h
  dsimp only at h
  obtain ⟨⟨sfi, r3⟩, -, h⟩ := exceptBind_eq_ok.mp h
  dsimp only at h
  obtain ⟨⟨sf, r4⟩, -, h⟩ := exceptBind_eq_ok.mp h
  dsimp only at h
  obtain ⟨⟨rfl_len, r5⟩, -, h⟩ := exceptBind_eq_ok.mp h
  dsimp only at h
  obtain ⟨⟨cn, r6⟩, -, h⟩ := exceptBind_eq_ok.mp h
  dsimp only at h
  obtain ⟨⟨cn2, cc, ocn, br, r7⟩, -, h⟩ := exceptBind_eq_ok.mp h
  dsimp only at h
  obtain ⟨⟨ord, r8⟩, -, h⟩ := exceptBind_eq_ok.mp h
  dsimp only at h
  obtain ⟨⟨res_raw, r9⟩, -, h⟩ := exceptBind_eq_ok.mp h
  dsimp only at h
  obtain ⟨⟨br2, r10⟩, -, h⟩ := exceptBind_eq_ok.mp h
  dsimp only at h
  injection h with h
  subst h
  rfl

/-- When `coding_profile` is neither BASIC nor OBJECT_METADATA, the codec-2
block leaves `channel_configuration` unassigned (`undefined`). -/
theorem aatfCodec2Block_cc_none {r : BitReader} {P : Int}
    {cn a cc ocn br : Option Int} {r' : BitReader}
    (h : aatfCodec2Block r P cn = .ok (a, cc, ocn, br, r'))
    (h0 : P ≠ 0) (h1 : P ≠ 1) : cc = none := by
  unfold aatfCodec2Block at h
  dsimp only at h
  rw [if_neg h0] at h
  simp only [bind, Except.bind, pure, Except.pure] at h
  rw [if_neg h1] at h
  injection h with h
  cases h
  rfl

/-- With `audio_codec_id = 2`, `coding_profile ≠ OBJECT_METADATA` and an
unassigned `channel_configuration`, the trailing bitrate block indexes
`BITRATE_TABLES[undefined]` and always throws. -/
theorem aatfFinalBitrate_cc_none {r : BitReader} {P : Int} {br : Option Int}
    {x : Option Int × BitReader}
    (h : aatfFinalBitrate r 2 P none br = .ok x) (h1 : P ≠ 1) : False := by
  unfold aatfFinalBitrate at h
  rw [if_pos ⟨rfl, h1⟩] at h
  obtain ⟨⟨bi, r2⟩, -, h⟩ := exceptBind_eq_ok.mp h
  dsimp only at h
  obtain ⟨q, hq, -⟩ := exceptBind_eq_ok.mp h
  simp [queryBitrate] at hq

/-- A frame header successfully parsed with `audio_codec_id = 2` has
`coding_profile` BASIC or OBJECT_METADATA: on the FOA_HOA and Reserved
profiles the final `queryBitrate` throws on the undefined configuration. -/
theorem parseAATF_codec2_profile {r : BitReader} {fh : AV3AFrameHeader}
    (h : parseAATFFrameHeader r 2 = .ok fh) :
    fh.coding_profile = 0 ∨ fh.coding_profile = 1 := by
  unfold parseAATFFrameHeader at h
  obtain ⟨⟨nn_type, r1⟩, -, h⟩ := exceptBind_eq_ok.mp h
  dsimp only at h
  obtain ⟨⟨cp_raw, r2⟩, -, h⟩ := exceptBind_eq_ok.mp h
  dsimp only at h
  obtain ⟨⟨sfi, r3⟩, -, h⟩ := exceptBind_eq_ok.mp h
  dsimp only at h
  obtain ⟨⟨sf, r4⟩, -, h⟩ := exceptBind_eq_ok.mp h
  dsimp only at h
  obtain ⟨⟨rfl_len, r5⟩, -, h⟩ := exceptBind_eq_ok.mp h
  dsimp only at h
  obtain ⟨⟨cn, r6⟩, -, h⟩ := exceptBind_eq_ok.mp h
  dsimp only at h
  obtain ⟨⟨cn2, cc, ocn, br, r7⟩, hblock, h⟩ := exceptBind_eq_ok.mp h
  dsimp only at h
  obtain ⟨⟨ord, r8⟩, -, h⟩ := exceptBind_eq_ok.mp h
  dsimp only at h
  obtain ⟨⟨res_raw, r9⟩, -, h⟩ := exceptBind_eq_ok.mp h
  dsimp only at h
  obtain ⟨⟨br2, r10⟩, hfin, h⟩ := exceptBind_eq_ok.mp h
  dsimp only at h
  injection h with h
  subst h
  show AV3AUtils.getCodingProfile cp_raw = 0 ∨
    AV3AUtils.getCodingProfile cp_raw = 1
  by_cases h0 : AV3AUtils.getCodingProfile cp_raw = 0
  · exact .inl h0
  by_cases h1 : AV3AUtils.getCodingProfile cp_raw = 1
  · exact .inr h1
  rw [if_pos rfl] at hblock
  have hcc := aatfCodec2Block_cc_none hblock h0 h1
  subst hcc
  exact (aatfFinalBitrate_cc_none hfin h1).elim

/-- A successful syncword-candidate attempt has a valid codec id, and a
codec-2 result has profile BASIC or OBJECT_METADATA. -/
theorem av3aAttempt_props {data : List Nat} {offset : Nat}
    {fh : AV3AFrameHeader} (h : av3aAttempt data offset = .ok fh) :
    AV3AUtils.isValidAudioCodecId fh.audio_codec_id = true ∧
    (fh.audio_codec_id = 2 → fh.coding_profile = 0 ∨ fh.coding_profile = 1) := by
  unfold av3aAttempt at h
  dsimp only at h
  obtain ⟨⟨x12, r1⟩, -, h⟩ := exceptBind_eq_ok.mp h
  dsimp only at h
  obtain ⟨⟨codec, r2⟩, -, h⟩ := exceptBind_eq_ok.mp h
  dsimp only at h
  split at h
  · rename_i hv
    obtain ⟨⟨b1, r3⟩, -, h⟩ := exceptBind_eq_ok.mp h
    dsimp only at h
    have hcodec := parseAATF_ok_codec h
    refine ⟨by rw [hcodec]; exact hv, fun h2 => ?_⟩
    rw [hcodec.symm.trans h2] at h
    exact parseAATF_codec2_profile h
  · exact Except.noConfusion h

/-- Every frame header returned by the scan comes from a successful
candidate attempt at some offset. -/
theorem av3aAnalyzeGo_ok {data : List Nat} :
    ∀ (fuel offset : Nat) (fh : AV3AFrameHeader),
      av3aAnalyzeGo data fuel offset = some fh →
      ∃ off, av3aAttempt data off = .ok fh := by
  intro fuel
  induction fuel with
  | zero => intro o fh h; simp [av3aAnalyzeGo] at h
  | succ fuel ih =>
    intro o fh h
    rw [av3aAnalyzeGo] at h
    split at h
    · split at h
      · split at h
        · rename_i fh' heq
          injection h with h
          subst h
          exact ⟨o, heq⟩
        · exact ih _ _ h
      · exact ih _ _ h
    · exact Option.noConfusion h

/-- **C6** (corrected).  The syncword scan accepts a candidate's
`audio_codec_id` exactly when `isValidAudioCodecId` holds — which admits
`GENERAL_HIGH_BITRATE = 0` as well as `LOSSLESS = 1` and
`GENERAL_FULL_BITRATE = 2` — so every frame header the analyzer ever
returns carries one of those three codec ids (not only 1 and 2 as
claimed); any other value makes the scan advance one byte and retry. -/
theorem av3aAnalyze_codec_valid {data : List Nat} {fh : AV3AFrameHeader}
    (h : av3aAnalyze data = some fh) :
    AV3AUtils.isValidAudioCodecId fh.audio_codec_id = true :=
  have ⟨_, ha⟩ := av3aAnalyzeGo_ok _ _ _ h
  (av3aAttempt_props ha).1

/-- Witness for the C6 theorem at the concrete codec-0 frame. -/
theorem av3aAnalyze_codec_valid_witness :
    AV3AUtils.isValidAudioCodecId
      ({ audio_codec_id := 0, nn_type := none, coding_profile := 0,
         sampling_frequency := 48000, raw_frame_length := some 0,
         channel_number := none, channel_configuration := none,
         object_channel_number := none, order := none, resolution := 16,
         bit_rate := .nan } : AV3AFrameHeader).audio_codec_id = true :=
  @av3aAnalyze_codec_valid av3aSampleCodec0
    { audio_codec_id := 0, nn_type := none, coding_profile := 0,
      sampling_frequency := 48000, raw_frame_length := some 0,
      channel_number := none, channel_configuration := none,
      object_channel_number := none, order := none, resolution := 16,
      bit_rate := .nan } (by decide)

/-- **C10** (confirmed).  `AV3AAnalyzer.analyze` never returns a frame
header whose `audio_codec_id` is 2 and whose `coding_profile` is FOA_HOA or
Reserved: on those branches `channel_configuration` is never assigned, the
final `queryBitrate` indexes `BITRATE_TABLES` with an undefined
configuration and throws, and the scan catches the error and retries — so
every returned codec-2 record has profile BASIC (0) or OBJECT_METADATA (1). -/
theorem av3aAnalyze_codec2_profile {data : List Nat} {fh : AV3AFrameHeader}
    (h : av3aAnalyze data = some fh) (h2 : fh.audio_codec_id = 2) :
    fh.coding_profile = 0 ∨ fh.coding_profile = 1 :=
  have ⟨_, ha⟩ := av3aAnalyzeGo_ok _ _ _ h
  (av3aAttempt_props ha).2 h2

/-- Witness for the C10 theorem at the concrete codec-2 BASIC frame. -/
theorem av3aAnalyze_codec2_profile_witness :
    ({ audio_codec_id := 2, nn_type := some 0, coding_profile := 0,
       sampling_frequency := 48000, raw_frame_length := none,
       channel_number := some 2, channel_configuration := some 1,
       object_channel_number := none, order := none, resolution := 16,
       bit_rate := .num 144000 } : AV3AFrameHeader).coding_profile = 0 ∨
    ({ audio_codec_id := 2, nn_type := some 0, coding_profile := 0,
       sampling_frequency := 48000, raw_frame_length := none,
       channel_number := some 2, channel_configuration := some 1,
       object_channel_number := none, order := none, resolution := 16,
       bit_rate := .num 144000 } : AV3AFrameHeader).coding_profile = 1 :=
  @av3aAnalyze_codec2_profile av3aSampleGeneral
    { audio_codec_id := 2, nn_type := some 0, coding_profile := 0,
      sampling_frequency := 48000, raw_frame_length := none,
      channel_number := some 2, channel_configuration := some 1,
      object_channel_number := none, order := none, resolution := 16,
      bit_rate := .num 144000 } (by decide) rfl

/-! ## C2: the Exp-Golomb round trip

Lemmas relating `BitReader` to the flat bit addressing `bitAt`/`bitsVal`,
culminating in the round-trip theorem: decoding a spec-encoded value with
`BitReader.readUE` returns the value for every `n ≤ 2^31 - 2`. -/

/-- `toInt32` is the identity below `2^31`. -/

theorem toInt32_cast (m : Nat) (h : m < 2 ^ 31) :
    toInt32 (m : Int) = (m : Int) := by
  have he : (m : Int).emod 4294967296 = (m : Int) :=
    Int.emod_eq_of_lt (by omega) (by omega)
  simp only [toInt32, he]
  rw [if_pos (by omega)]

/-- `toUInt32` is the identity below `2^32`. -/
theorem toUInt32_cast (m : Nat) (h : m < 2 ^ 32) :
    toUInt32 (m : Int) = m := by
  have he : (m : Int).emod 4294967296 = (m : Int) :=
    Int.emod_eq_of_lt (by omega) (by omega)
  simp only [toUInt32, he]
  omega

/-- Low-bit split of a modulus by a power of two. -/
theorem mod_two_pow_split (x b : Nat) :
    x % 2 ^ (b + 1) = x / 2 % 2 ^ b * 2 + x % 2 := by
  have h : 2 ^ (b + 1) = 2 * 2 ^ b := by ring
  rw [h, Nat.mod_mul]
  ring

/-- The JS accumulator step `(acc << b) | v` is exact below `2^31`. -/
theorem jsOr_shl_chunk (acc b v : Nat) (hv : v < 2 ^ b)
    (hb : b < 32) (hbound : (acc + 1) * 2 ^ b ≤ 2 ^ 31) :
    jsOr (jsShl (acc : Int) b) (v : Int) = ((acc * 2 ^ b + v : Nat) : Int) := by
  have h1 : (acc + 1) * 2 ^ b = acc * 2 ^ b + 2 ^ b := by ring
  have hacc : acc < 2 ^ 31 := by
    have h2 : 1 ≤ 2 ^ b := Nat.one_le_two_pow
    nlinarith
  have hprod : acc * 2 ^ b < 2 ^ 31 := by omega
  have hsum : acc * 2 ^ b + v < 2 ^ 31 := by omega
  have hshl : jsShl (acc : Int) b = ((acc * 2 ^ b : Nat) : Int) := by
    simp only [jsShl]
    rw [toInt32_cast acc hacc, Nat.mod_eq_of_lt hb]
    have h3 : (acc : Int) * 2 ^ b = ((acc * 2 ^ b : Nat) : Int) := by
      push_cast; ring
    rw [h3, toInt32_cast _ hprod]
  rw [hshl]
  simp only [jsOr]
  rw [toUInt32_cast _ (by omega), toUInt32_cast _ (by omega)]
  have hlor : Nat.lor (acc * 2 ^ b) v = acc * 2 ^ b + v := by
    have h4 := Nat.mul_add_lt_is_or hv acc
    have hc : 2 ^ b * acc = acc * 2 ^ b := by ring
    rw [hc] at h4
    exact h4.symm
  rw [hlor, Int.ofNat_eq_natCast, toInt32_cast _ hsum]

/-- `1 << k` is exactly `2^k` for `k ≤ 30`. -/
theorem jsShl_one_pow (k : Nat) (h : k ≤ 30) :
    jsShl 1 k = ((2 ^ k : Nat) : Int) := by
  have hlt : (2 : Nat) ^ k < 2 ^ 31 :=
    Nat.pow_lt_pow_right (by omega) (by omega)
  simp only [jsShl]
  have h1 : toInt32 1 = 1 := by decide
  rw [Nat.mod_eq_of_lt (by omega), h1]
  have h2 : (1 : Int) * 2 ^ k = ((2 ^ k : Nat) : Int) := by push_cast; ring
  rw [h2, toInt32_cast _ hlt]

/-- Bit `j` of a packed byte. -/
theorem byteVal_bit (b0 b1 b2 b3 b4 b5 b6 b7 : Bool) (j : Nat) (h : j < 8) :
    byteVal b0 b1 b2 b3 b4 b5 b6 b7 / 2 ^ (7 - j) % 2 =
      ([b0, b1, b2, b3, b4, b5, b6, b7].getD j false).toNat := by
  interval_cases j <;> revert b0 b1 b2 b3 b4 b5 b6 b7 <;> decide

/-- A bit is `0` or `1`. -/
theorem bitAt_lt_two (buf : List Nat) (p : Nat) : bitAt buf p < 2 :=
  Nat.mod_lt _ (by omega)

/-- `n` bits are worth less than `2^n`. -/
theorem bitsVal_lt (buf : List Nat) (p : Nat) :
    ∀ n, bitsVal buf p n < 2 ^ n := by
  intro n
  induction n with
  | zero => simp [bitsVal]
  | succ n ih =>
    have h := bitAt_lt_two buf (p + n)
    rw [bitsVal]
    have h2 : 2 ^ (n + 1) = 2 ^ n * 2 := by ring
    omega

/-- Splitting a bit-string value at a midpoint. -/
theorem bitsVal_split (buf : List Nat) (p a : Nat) :
    ∀ c, bitsVal buf p (a + c) = bitsVal buf p a * 2 ^ c + bitsVal buf (p + a) c := by
  intro c
  induction c with
  | zero => simp [bitsVal]
  | succ c ih =>
    have h1 : a + (c + 1) = (a + c) + 1 := by omega
    rw [h1, bitsVal, ih, bitsVal]
    have h2 : p + (a + c) = p + a + c := by omega
    rw [h2]
    ring

/-- Bit addressing into a single packed byte. -/
theorem bitAt_single (x0 x1 x2 x3 x4 x5 x6 x7 : Bool) (p : Nat) :
    bitAt [byteVal x0 x1 x2 x3 x4 x5 x6 x7] p =
      ([x0, x1, x2, x3, x4, x5, x6, x7].getD p false).toNat := by
  by_cases hp : p < 8
  · have h1 : p / 8 = 0 := by omega
    have h2 : p % 8 = p := by omega
    rw [bitAt, h1, h2]
    rw [show ([byteVal x0 x1 x2 x3 x4 x5 x6 x7]).getD 0 0 =
      byteVal x0 x1 x2 x3 x4 x5 x6 x7 from rfl]
    exact byteVal_bit x0 x1 x2 x3 x4 x5 x6 x7 p hp
  · rw [bitAt, List.getD_eq_default _ _ (by simp; omega),
      List.getD_eq_default _ _ (by simp; omega)]
    simp

/-- Bit `p` of the packed buffer is bit `p` of the bit string. -/
theorem bitAt_bytesOfBits (l : List Bool) :
    ∀ p, bitAt (bytesOfBits l) p = (l.getD p false).toNat := by
  induction l using bytesOfBits.induct with
  | case1 b0 b1 b2 b3 b4 b5 b6 b7 rest ih =>
    intro p
    by_cases hp : p < 8
    · have h1 : p / 8 = 0 := by omega
      have h2 : p % 8 = p := by omega
      rw [bytesOfBits, bitAt, h1, h2]
      rw [show (byteVal b0 b1 b2 b3 b4 b5 b6 b7 :: bytesOfBits rest).getD 0 0 =
        byteVal b0 b1 b2 b3 b4 b5 b6 b7 from rfl]
      rw [byteVal_bit b0 b1 b2 b3 b4 b5 b6 b7 p hp]
      interval_cases p <;> rfl
    · obtain ⟨q, rfl⟩ : ∃ q, p = q + 8 := ⟨p - 8, by omega⟩
      have h1 : (q + 8) / 8 = q / 8 + 1 := by omega
      have h2 : (q + 8) % 8 = q % 8 := by omega
      rw [bytesOfBits, bitAt, h1, h2]
      rw [show (byteVal b0 b1 b2 b3 b4 b5 b6 b7 :: bytesOfBits rest).getD (q / 8 + 1) 0 =
        (bytesOfBits rest).getD (q / 8) 0 from rfl]
      have h3 := ih q
      rw [bitAt] at h3
      rw [h3]
      rfl
  | case2 =>
    intro p
    simp [bytesOfBits, bitAt]
  | case3 l h1 h2 =>
    intro p
    rcases l with - | ⟨a0, - | ⟨a1, - | ⟨a2, - | ⟨a3, - | ⟨a4, - | ⟨a5, - | ⟨a6, - | ⟨a7, rest⟩⟩⟩⟩⟩⟩⟩⟩
    · exact absurd rfl (by exact fun h => h2 h)
    · rw [show bytesOfBits [a0] =
        [byteVal a0 false false false false false false false] from rfl, bitAt_single]
      by_cases hp : p < 8
      · interval_cases p <;> rfl
      · rw [List.getD_eq_default _ _ (by simp; omega),
          List.getD_eq_default _ _ (by simp; omega)]
    · rw [show bytesOfBits [a0, a1] =
        [byteVal a0 a1 false false false false false false] from rfl, bitAt_single]
      by_cases hp : p < 8
      · interval_cases p <;> rfl
      · rw [List.getD_eq_default _ _ (by simp; omega),
          List.getD_eq_default _ _ (by simp; omega)]
    · rw [show bytesOfBits [a0, a1, a2] =
        [byteVal a0 a1 a2 false false false false false] from rfl, bitAt_single]
      by_cases hp : p < 8
      · interval_cases p <;> rfl
      · rw [List.getD_eq_default _ _ (by simp; omega),
          List.getD_eq_default _ _ (by simp; omega)]
    · rw [show bytesOfBits [a0, a1, a2, a3] =
        [byteVal a0 a1 a2 a3 false false false false] from rfl, bitAt_single]
      by_cases hp : p < 8
      · interval_cases p <;> rfl
      · rw [List.getD_eq_default _ _ (by simp; omega),
          List.getD_eq_default _ _ (by simp; omega)]
    · rw [show bytesOfBits [a0, a1, a2, a3, a4] =
        [byteVal a0 a1 a2 a3 a4 false false false] from rfl, bitAt_single]
      by_cases hp : p < 8
      · interval_cases p <;> rfl
      · rw [List.getD_eq_default _ _ (by simp; omega),
          List.getD_eq_default _ _ (by simp; omega)]
    · rw [show bytesOfBits [a0, a1, a2, a3, a4, a5] =
        [byteVal a0 a1 a2 a3 a4 a5 false false] from rfl, bitAt_single]
      by_cases hp : p < 8
      · interval_cases p <;> rfl
      · rw [List.getD_eq_default _ _ (by simp; omega),
          List.getD_eq_default _ _ (by simp; omega)]
    · rw [show bytesOfBits [a0, a1, a2, a3, a4, a5, a6] =
        [byteVal a0 a1 a2 a3 a4 a5 a6 false] from rfl, bitAt_single]
      by_cases hp : p < 8
      · interval_cases p <;> rfl
      · rw [List.getD_eq_default _ _ (by simp; omega),
          List.getD_eq_default _ _ (by simp; omega)]
    · exact absurd rfl (by exact fun h => h1 a0 a1 a2 a3 a4 a5 a6 a7 rest h)

/-- Packing does not lose bits: `8` bits fit per byte. -/
theorem bytesOfBits_len (l : List Bool) :
    l.length ≤ 8 * (bytesOfBits l).length := by
  induction l using bytesOfBits.induct with
  | case1 b0 b1 b2 b3 b4 b5 b6 b7 rest ih =>
    rw [bytesOfBits]
    simp only [List.length_cons]
    omega
  | case2 => simp [bytesOfBits]
  | case3 l h1 h2 =>
    rcases l with - | ⟨a0, - | ⟨a1, - | ⟨a2, - | ⟨a3, - | ⟨a4, - | ⟨a5, - | ⟨a6, - | ⟨a7, rest⟩⟩⟩⟩⟩⟩⟩⟩
    · exact absurd rfl (by exact fun h => h2 h)
    · rw [show bytesOfBits [a0] =
        [byteVal a0 false false false false false false false] from rfl]
      simp
    · rw [show bytesOfBits [a0, a1] =
        [byteVal a0 a1 false false false false false false] from rfl]
      simp
    · rw [show bytesOfBits [a0, a1, a2] =
        [byteVal a0 a1 a2 false false false false false] from rfl]
      simp
    · rw [show bytesOfBits [a0, a1, a2, a3] =
        [byteVal a0 a1 a2 a3 false false false false] from rfl]
      simp
    · rw [show bytesOfBits [a0, a1, a2, a3, a4] =
        [byteVal a0 a1 a2 a3 a4 false false false] from rfl]
      simp
    · rw [show bytesOfBits [a0, a1, a2, a3, a4, a5] =
        [byteVal a0 a1 a2 a3 a4 a5 false false] from rfl]
      simp
    · rw [show bytesOfBits [a0, a1, a2, a3, a4, a5, a6] =
        [byteVal a0 a1 a2 a3 a4 a5 a6 false] from rfl]
      simp
    · exact absurd rfl (by exact fun h => h1 a0 a1 a2 a3 a4 a5 a6 a7 rest h)

/-- The in-byte chunk extracted by `readBitsGo` equals `bitsVal`. -/
theorem chunkVal (buf : List Nat) (p : Nat) :
    ∀ b, p % 8 + b ≤ 8 →
      buf.getD (p / 8) 0 / 2 ^ (8 - p % 8 - b) % 2 ^ b = bitsVal buf p b := by
  intro b
  induction b with
  | zero =>
    intro _
    simp only [bitsVal, pow_zero]
    omega
  | succ b ih =>
    intro hb
    rw [bitsVal, ← ih (by omega)]
    rw [mod_two_pow_split]
    have h1 : buf.getD (p / 8) 0 / 2 ^ (8 - p % 8 - (b + 1)) / 2 =
        buf.getD (p / 8) 0 / 2 ^ (8 - p % 8 - b) := by
      rw [Nat.div_div_eq_div_mul, ← pow_succ]
      congr 2
      omega
    rw [h1]
    congr 1
    rw [bitAt]
    have h2 : (p + b) / 8 = p / 8 := by omega
    have h3 : 7 - (p + b) % 8 = 8 - p % 8 - (b + 1) := by omega
    rw [h2, h3]

/-- `BitReader.readBit` at flat position `p` returns `bitAt` and advances. -/
theorem readBit_mkPos (buf : List Nat) (p : Nat) (h : p / 8 < buf.length) :
    BitReader.readBit ⟨buf, p / 8, p % 8⟩ =
      .ok (bitAt buf p, ⟨buf, (p + 1) / 8, (p + 1) % 8⟩) := by
  rw [BitReader.readBit]
  simp only
  rw [if_neg (by omega)]
  rw [Nat.shiftRight_eq_div_pow, Nat.and_one_is_mod]
  by_cases h8 : p % 8 + 1 = 8
  · rw [if_pos h8]
    simp only [Except.ok.injEq, Prod.mk.injEq, BitReader.mk.injEq]
    and_intros <;> first | trivial | omega
  · rw [if_neg h8]
    simp only [Except.ok.injEq, Prod.mk.injEq, BitReader.mk.injEq]
    and_intros <;> first | trivial | omega

set_option maxHeartbeats 1000000 in
/-- The `readBits` loop reads exactly `bitsVal buf p n` when the running
accumulator stays below `2^31` (no 32-bit wrap). -/
theorem readBitsGo_spec (buf : List Nat) :
    ∀ (fuel n acc p : Nat), n ≤ fuel → (acc + 1) * 2 ^ n ≤ 2 ^ 31 →
      p + n ≤ 8 * buf.length →
      readBitsGo buf fuel n ((acc : Nat) : Int) (p / 8) (p % 8) =
        .ok ((↑(acc * 2 ^ n + bitsVal buf p n), (p + n) / 8, (p + n) % 8)) := by
  intro fuel
  induction fuel with
  | zero =>
    intro n acc p hn _ _
    have h0 : n = 0 := by omega
    subst h0
    simp [readBitsGo, bitsVal]
  | succ f ih =>
    intro n acc p hn hbound hlen
    cases n with
    | zero => simp [readBitsGo, bitsVal]
    | succ n =>
      rw [readBitsGo]
      rw [if_neg (by omega : ¬ p / 8 ≥ buf.length)]
      dsimp only
      generalize hb : min (n + 1) (8 - p % 8) = b
      have hb1 : 1 ≤ b := hb ▸ le_min (by omega) (by omega)
      have hbn : b ≤ n + 1 := hb ▸ min_le_left _ _
      have hb8 : p % 8 + b ≤ 8 := by
        have := hb ▸ min_le_right (n + 1) (8 - p % 8)
        omega
      have hbsum : b + (n + 1 - b) = n + 1 := by omega
      have hpowsum : 2 ^ b * 2 ^ (n + 1 - b) = 2 ^ (n + 1) := by
        rw [← pow_add, hbsum]
      have hchunkbound : (acc + 1) * 2 ^ b ≤ 2 ^ 31 := by
        calc (acc + 1) * 2 ^ b ≤ (acc + 1) * 2 ^ (n + 1) :=
              Nat.mul_le_mul_left _ (Nat.pow_le_pow_right (by omega) hbn)
          _ ≤ 2 ^ 31 := hbound
      rw [Nat.shiftRight_eq_div_pow, Nat.and_pow_two_sub_one_eq_mod,
        chunkVal buf p b hb8]
      simp only [Int.ofNat_eq_natCast]
      rw [jsOr_shl_chunk acc b (bitsVal buf p b) (bitsVal_lt buf p b) (by omega)
        hchunkbound]
      have hvlt := bitsVal_lt buf p b
      have hmul : (acc + 1) * 2 ^ b = acc * 2 ^ b + 2 ^ b := by ring
      have happ := ih (n + 1 - b) (acc * 2 ^ b + bitsVal buf p b) (p + b)
        (by omega)
        (by
          have step1 : acc * 2 ^ b + bitsVal buf p b + 1 ≤ (acc + 1) * 2 ^ b := by
            omega
          calc (acc * 2 ^ b + bitsVal buf p b + 1) * 2 ^ (n + 1 - b)
              ≤ ((acc + 1) * 2 ^ b) * 2 ^ (n + 1 - b) :=
                Nat.mul_le_mul_right _ step1
            _ = (acc + 1) * 2 ^ (n + 1) := by rw [mul_assoc, hpowsum]
            _ ≤ 2 ^ 31 := hbound)
        (by omega)
      have hval : (acc * 2 ^ b + bitsVal buf p b) * 2 ^ (n + 1 - b) +
          bitsVal buf (p + b) (n + 1 - b) =
          acc * 2 ^ (n + 1) + bitsVal buf p (n + 1) := by
        have hs := bitsVal_split buf p b (n + 1 - b)
        rw [hbsum] at hs
        calc (acc * 2 ^ b + bitsVal buf p b) * 2 ^ (n + 1 - b) +
            bitsVal buf (p + b) (n + 1 - b)
            = acc * (2 ^ b * 2 ^ (n + 1 - b)) +
              (bitsVal buf p b * 2 ^ (n + 1 - b) +
                bitsVal buf (p + b) (n + 1 - b)) := by ring
          _ = acc * 2 ^ (n + 1) + bitsVal buf p (n + 1) := by rw [hpowsum, ← hs]
      rw [hval] at happ
      rw [show p + b + (n + 1 - b) = p + (n + 1) from by omega] at happ
      by_cases h8 : p % 8 + b = 8
      · rw [if_pos h8]
        dsimp only
        rw [show (p + b) / 8 = p / 8 + 1 from by omega,
          show (p + b) % 8 = 0 from by omega] at happ
        exact happ
      · rw [if_neg h8]
        dsimp only
        rw [show (p + b) / 8 = p / 8 from by omega,
          show (p + b) % 8 = p % 8 + b from by omega] at happ
        exact happ

/-- Forward reduction of a monadic bind on `Except.ok`. -/
theorem exceptBind_ok {α β : Type} (a : α) (f : α → Except JSError β) :
    (Except.ok a >>= f) = f a := rfl

/-- `BitReader.readBits n` at flat position `p`, for `n ≤ 31`. -/
theorem readBits_mkPos (buf : List Nat) (p n : Nat) (hn : n ≤ 31)
    (hlen : p + n ≤ 8 * buf.length) :
    BitReader.readBits ⟨buf, p / 8, p % 8⟩ n =
      .ok ((↑(bitsVal buf p n), ⟨buf, (p + n) / 8, (p + n) % 8⟩)) := by
  rw [BitReader.readBits]
  rw [if_neg (by omega)]
  by_cases h0 : n = 0
  · subst h0
    rw [if_pos rfl]
    simp [bitsVal]
  · rw [if_neg h0]
    have hs := readBitsGo_spec buf n n 0 p (le_refl n)
      (by
        have h2 : (2 : Nat) ^ n ≤ 2 ^ 31 := Nat.pow_le_pow_right (by omega) hn
        omega)
      hlen
    simp only [Nat.cast_zero, Nat.zero_mul, Nat.zero_add] at hs
    rw [hs]

set_option maxHeartbeats 1000000 in
/-- `readUEGo` over a stream with `i` leading zeros, a one, then the
suffix: returns `(1 << (j+i)) - 1 + suffix` as the source computes it. -/
theorem readUEGo_spec (buf : List Nat) :
    ∀ (i fuel j p : Nat), (∀ t, t < i → bitAt buf (p + t) = 0) →
      bitAt buf (p + i) = 1 →
      j + i ≤ 31 →
      p + i + 1 + (j + i) ≤ 8 * buf.length →
      i + 1 ≤ fuel →
      readUEGo fuel ⟨buf, p / 8, p % 8⟩ j =
        .ok ((jsShl 1 (j + i) - 1 + ↑(bitsVal buf (p + i + 1) (j + i)),
          ⟨buf, (p + i + 1 + (j + i)) / 8, (p + i + 1 + (j + i)) % 8⟩)) := by
  intro i
  induction i with
  | zero =>
    intro fuel j p hz h1 hj hlen hfuel
    match fuel, hfuel with
    | fuel + 1, _ =>
      rw [readUEGo]
      rw [Nat.add_zero] at h1
      rw [readBit_mkPos buf p (by omega)]
      rw [exceptBind_ok]
      dsimp only
      rw [if_neg (by omega : ¬ bitAt buf p = 0)]
      rw [readBits_mkPos buf (p + 1) j (by omega) (by omega)]
      rw [exceptBind_ok]
      dsimp only
      simp only [Nat.add_zero]
  | succ i ih =>
    intro fuel j p hz h1 hj hlen hfuel
    match fuel, hfuel with
    | fuel + 1, hfuel =>
      rw [readUEGo]
      have hz0 : bitAt buf p = 0 := by
        have h := hz 0 (by omega)
        rwa [Nat.add_zero] at h
      rw [readBit_mkPos buf p (by omega)]
      rw [exceptBind_ok]
      dsimp only
      rw [if_pos hz0]
      rw [if_neg (by omega : ¬ j + 1 > 31)]
      have happ := ih fuel (j + 1) (p + 1)
        (fun t ht => by
          have h := hz (t + 1) (by omega)
          rwa [show p + (t + 1) = p + 1 + t from by omega] at h)
        (by rwa [show p + 1 + i = p + (i + 1) from by omega])
        (by omega) (by omega) (by omega)
      rw [show j + 1 + i = j + (i + 1) from by omega,
        show p + 1 + i + 1 = p + (i + 1) + 1 from by omega] at happ
      exact happ

/-- `log2floorGo` computes the floor base-2 logarithm. -/
theorem log2floorGo_bounds :
    ∀ fuel n, 1 ≤ n → n ≤ fuel →
      2 ^ log2floorGo fuel n ≤ n ∧ n < 2 ^ (log2floorGo fuel n + 1) := by
  intro fuel
  induction fuel with
  | zero => intro n h1 h2; omega
  | succ f ih =>
    intro n h1 h2
    rw [log2floorGo]
    by_cases hn : n ≥ 2
    · rw [if_pos hn]
      have hrec := ih (n / 2) (by omega) (by omega)
      have e1 : 2 ^ (log2floorGo f (n / 2) + 1) = 2 * 2 ^ log2floorGo f (n / 2) := by
        ring
      have e2 : 2 ^ (log2floorGo f (n / 2) + 1 + 1) =
          2 * 2 ^ (log2floorGo f (n / 2) + 1) := by ring
      omega
    · rw [if_neg hn]
      have e0 : (2 : Nat) ^ 0 = 1 := rfl
      have e1 : (2 : Nat) ^ (0 + 1) = 2 := rfl
      omega

/-- `2 ^ log2floor n ≤ n < 2 ^ (log2floor n + 1)` for `n ≥ 1`. -/
theorem log2floor_bounds (n : Nat) (h : 1 ≤ n) :
    2 ^ log2floor n ≤ n ∧ n < 2 ^ (log2floor n + 1) :=
  log2floorGo_bounds n n h (le_refl n)

/-- `natBits k v` has exactly `k` bits. -/
theorem natBits_length (k : Nat) : ∀ v, (natBits k v).length = k := by
  induction k with
  | zero => intro v; rfl
  | succ k ih =>
    intro v
    rw [natBits]
    simp [ih]

/-- Reading back the bits of `natBits k v` yields `v`. -/
theorem bitsVal_of_natBits (buf : List Nat) :
    ∀ k v p, v < 2 ^ k →
      (∀ t, t < k → bitAt buf (p + t) = ((natBits k v).getD t false).toNat) →
      bitsVal buf p k = v := by
  intro k
  induction k with
  | zero =>
    intro v p hv _
    simp [bitsVal]
    omega
  | succ k ih =>
    intro v p hv hbits
    rw [bitsVal]
    have hv2 : v / 2 < 2 ^ k := by
      have e : 2 ^ (k + 1) = 2 * 2 ^ k := by ring
      omega
    have hrec := ih (v / 2) p hv2 (fun t ht => by
      have h := hbits t (by omega)
      rw [natBits] at h
      rwa [List.getD_append _ _ _ _ (by rw [natBits_length]; omega)] at h)
    rw [hrec]
    have hlast := hbits k (by omega)
    rw [natBits,
      List.getD_append_right _ _ _ _ (by rw [natBits_length])] at hlast
    rw [natBits_length, Nat.sub_self, List.getD_cons_zero] at hlast
    rcases Nat.mod_two_eq_zero_or_one v with h | h <;>
      simp [h] at hlast <;> omega

/-- C2 (amended): for every `n ≤ 2^31 - 2`, decoding the standard unsigned
Exp-Golomb encoding of `n` with `BitReader.readUE` succeeds and returns
exactly `n`.  (At the excluded endpoint `n = 2^31 - 1` the JS 32-bit shift
wraps and the decoder returns `-2147483649` instead — see
`readUE_endpoint_wraps`.) -/
theorem readUE_specEncode_roundtrip (n : Nat) (hn : n ≤ 2 ^ 31 - 2) :
    ∃ r', (BitReader.init (bytesOfBits (specEncodeUE n)) 0).readUE =
      .ok (((n : Nat) : Int), r') := by
  obtain ⟨hlo, hhi⟩ := log2floor_bounds (n + 1) (by omega)
  set k := log2floor (n + 1) with hk
  have hk30 : k ≤ 30 := by
    by_contra hc
    push_neg at hc
    have h31 : (2 : Nat) ^ 31 ≤ 2 ^ k := Nat.pow_le_pow_right (by omega) (by omega)
    omega
  have hpow : 2 ^ (k + 1) = 2 * 2 ^ k := by ring
  set m := n + 1 - 2 ^ k with hm
  have hmlt : m < 2 ^ k := by omega
  have henc : specEncodeUE n =
      List.replicate k false ++ [true] ++ natBits k m := by
    rw [specEncodeUE]
  set l := List.replicate k false ++ [true] ++ natBits k m with hl
  set buf := bytesOfBits l with hbuf
  have hllen : l.length = 2 * k + 1 := by
    rw [hl]
    simp [natBits_length]
    omega
  have hblen : l.length ≤ 8 * buf.length := by
    rw [hbuf]
    exact bytesOfBits_len l
  have hbits := bitAt_bytesOfBits l
  have hz : ∀ t, t < k → bitAt buf (0 + t) = 0 := by
    intro t ht
    rw [Nat.zero_add, hbits t]
    rw [List.getD_append _ _ _ _ (by simp; omega)]
    rw [List.getD_append _ _ _ _ (by simp; omega)]
    simp
  have ho : bitAt buf (0 + k) = 1 := by
    rw [Nat.zero_add, hbits k]
    rw [List.getD_append _ _ _ _ (by simp)]
    rw [List.getD_append_right _ _ _ _ (by simp)]
    simp
  have hUE := readUEGo_spec buf k 33 0 0 hz ho (by omega)
    (by omega) (by omega)
  simp only [Nat.zero_add] at hUE
  have hv : bitsVal buf (k + 1) k = m := by
    refine bitsVal_of_natBits buf k m (k + 1) hmlt (fun t ht => ?_)
    rw [hbits]
    rw [List.getD_append_right _ _ _ _ (by simp)]
    congr 2
    simp
  rw [hv, jsShl_one_pow k hk30] at hUE
  have hfin : (((2 ^ k : Nat) : Int)) - 1 + ((m : Nat) : Int) = ((n : Nat) : Int) := by
    omega
  rw [hfin] at hUE
  refine ⟨BitReader.mk buf ((k + 1 + k) / 8) ((k + 1 + k) % 8), ?_⟩
  rw [BitReader.readUE, henc, ← hbuf]
  rw [show BitReader.init buf 0 = ⟨buf, 0 / 8, 0 % 8⟩ from rfl]
  exact hUE

/-- Witness for `readUE_specEncode_roundtrip` at `n = 5`. -/
theorem readUE_specEncode_roundtrip_witness :
    5 ≤ 2 ^ 31 - 2 ∧
      ∃ r', (BitReader.init (bytesOfBits (specEncodeUE 5)) 0).readUE =
        .ok (((5 : Nat) : Int), r') :=
  ⟨by norm_num, readUE_specEncode_roundtrip 5 (by norm_num)⟩
